import Mathlib

/-!
# Verification of the mmel trend-analysis core

Shallow embedding of `src/server/routes/trend-analysis.ts` (the authoritative
first revision of the file, lines 1-787, whose clamp bounds and smoothing
passes match the frozen claims' line references), together with proofs about
the embedded definitions.

Modelling conventions:
* JS numbers are modelled over a `LinearOrderedField` with a `FloorRing`
  instance, so every definition can be instantiated both at `ℚ` (computable,
  used by witnesses and counterexamples) and at `ℝ` (used where the source
  calls `Math.sin`).
* `Math.round` is JS rounding (half toward +infinity): `⌊x + 1/2⌋`.
* Dates are day numbers (`ℤ`).  `date.setDate(date.getDate() + d)` followed by
  ISO formatting is order-isomorphic to adding `d` to the day number.
* The seasonal factor and the `Math.random()`-based noise factor that the
  historical simulators compute per day (source lines 36-52 and 112-127) are
  abstracted as an environment oracle `env : ℕ → α × α` giving the pair
  `(seasonalFactor, noiseFactor)` for each day; `addNoise = false` corresponds
  to the constant environment `noiseOff = fun _ => (1, 1)`, since both factors
  are initialised to `1` and only changed inside `if (addNoise)`.
-/

namespace Mmel

variable {α : Type} [LinearOrderedField α] [FloorRing α]

/-- JS `Math.round`: rounds half up (toward positive infinity), `⌊x + 1/2⌋`. -/
def jsRound (x : α) : α := ((⌊x + 1/2⌋ : ℤ) : α)

/-- JS `Math.floor` reinjected into the number type. -/
def jsFloor (x : α) : α := ((⌊x⌋ : ℤ) : α)

/-- The `modelType` request field: exactly one of two values. -/
inductive ModelType
  | SIS
  | SEIR
deriving DecidableEq

/-- `ModelParameters` from `shared/api`: `sigma` is present only for SEIR
(the SEIR simulator destructures it with default `0.1`). -/
structure ModelParameters (α : Type) where
  beta : α
  gamma : α
  sigma : Option α
  initialInfected : α
  totalPopulation : α
deriving DecidableEq

/-- `TrendDataPoint` from `shared/api`; `date` is the day number of the ISO
date string, `exposed`/`recovered` are absent (`undefined`) for SIS. -/
structure TrendDataPoint (α : Type) where
  date : ℤ
  susceptible : α
  exposed : Option α
  infected : α
  recovered : Option α
  totalPopulation : α
deriving DecidableEq

/-- The four-compartment sum of a data point (missing compartments count 0). -/
def compartmentSum (pt : TrendDataPoint α) : α :=
  pt.susceptible + pt.exposed.getD 0 + pt.infected + pt.recovered.getD 0

/-- The noise-disabled environment: seasonal and noise factors are both 1. -/
def noiseOff : ℕ → α × α := fun _ => (1, 1)

/-! ## SIS simulator (source lines 13-84)

`dt = 0.1`; `stepsPerDay = Math.floor(1 / dt) = 10` (in IEEE doubles
`1 / 0.1 == 10` exactly, so the floor is 10). -/

/-- One Euler substep of the SIS integrator (source lines 70-80):
`dS = γ·I − β·S·I/N`, `dI = β·S·I/N − γ·I`, advance by `dt = 1/10`, then
clamp `S` to `[0, N]` and `I` to `[1, N]`. -/
def sisSub (beta gamma N : α) (s : α × α) : α × α :=
  let dS := gamma * s.2 - beta * s.1 * s.2 / N
  let dI := beta * s.1 * s.2 / N - gamma * s.2
  (max 0 (min N (s.1 + dS * (1/10))), max 1 (min N (s.2 + dI * (1/10))))

/-- One simulated day: 10 substeps with `currentBeta = β·sf` and
`currentGamma = γ/sf` (source lines 66-80). -/
def sisDay (p : ModelParameters α) (sf : α) (s : α × α) : α × α :=
  (sisSub (p.beta * sf) (p.gamma / sf) p.totalPopulation)^[10] s

/-- Internal SIS state at the start of day `d` (before day `d`'s reporting):
day 0 starts from `S = N − I₀`, `I = I₀` (source lines 21-22). -/
def sisStateAt (p : ModelParameters α) (env : ℕ → α × α) : ℕ → α × α
  | 0 => (p.totalPopulation - p.initialInfected, p.initialInfected)
  | d + 1 => sisDay p (env d).1 (sisStateAt p env d)

/-- The data point reported on day `d` (source lines 54-64): the current
state scaled by the day's seasonal and noise factors, rounded, with
`susceptible` clamped to `[0, N]` and `infected` clamped to `[1, N]`. -/
def sisPoint (p : ModelParameters α) (startDate : ℤ) (env : ℕ → α × α) (d : ℕ) :
    TrendDataPoint α :=
  let sf := (env d).1
  let nf := (env d).2
  let s := sisStateAt p env d
  { date := startDate + d
    susceptible := max 0 (min p.totalPopulation (jsRound (s.1 * sf * nf)))
    exposed := none
    infected := max 1 (min p.totalPopulation (jsRound (s.2 * sf * nf)))
    recovered := none
    totalPopulation := p.totalPopulation }

/-- `simulateSIS`: one reported point per day `0, …, days`. -/
def simulateSIS (p : ModelParameters α) (startDate : ℤ) (days : ℕ)
    (env : ℕ → α × α) : List (TrendDataPoint α) :=
  (List.range (days + 1)).map (sisPoint p startDate env)

/-! ## SEIR simulator (source lines 87-165) -/

/-- SEIR compartment state. -/
structure SeirState (α : Type) where
  S : α
  E : α
  I : α
  R : α
deriving DecidableEq

/-- One Euler substep of the SEIR integrator (source lines 145-161):
`dS = −β·S·I/N`, `dE = β·S·I/N − σ·E`, `dI = σ·E − γ·I`, `dR = γ·I`,
advance by `dt = 1/10`, then floor `S`, `E`, `R` at 0 and `I` at 1
(no upper clamps). -/
def seirSub (beta gamma sigma N : α) (s : SeirState α) : SeirState α :=
  let dS := -beta * s.S * s.I / N
  let dE := beta * s.S * s.I / N - sigma * s.E
  let dI := sigma * s.E - gamma * s.I
  let dR := gamma * s.I
  { S := max 0 (s.S + dS * (1/10))
    E := max 0 (s.E + dE * (1/10))
    I := max 1 (s.I + dI * (1/10))
    R := max 0 (s.R + dR * (1/10)) }

/-- One simulated SEIR day: 10 substeps with `currentBeta = β·sf`,
`currentSigma = σ·(0.8 + 0.4·sf)` and `currentGamma = γ/sf`
(source lines 140-161); `σ` defaults to `0.1` when absent (line 93). -/
def seirDay (p : ModelParameters α) (sf : α) (s : SeirState α) : SeirState α :=
  (seirSub (p.beta * sf) (p.gamma / sf)
    (p.sigma.getD (1/10) * (4/5 + 2/5 * sf)) p.totalPopulation)^[10] s

/-- Initial SEIR state (source lines 95-98): `S = N − I₀`, `E = 0`,
`I = I₀`, `R = 0`. -/
def seirInit (p : ModelParameters α) : SeirState α :=
  { S := p.totalPopulation - p.initialInfected
    E := 0
    I := p.initialInfected
    R := 0 }

/-- Internal SEIR state at the start of day `d`. -/
def seirStateAt (p : ModelParameters α) (env : ℕ → α × α) : ℕ → SeirState α
  | 0 => seirInit p
  | d + 1 => seirDay p (env d).1 (seirStateAt p env d)

/-- The SEIR data point reported on day `d` (source lines 129-138): scaled
and rounded compartments, `S`, `E`, `R` floored at 0 and `I` floored at 1;
there is no upper clamp on any reported SEIR value. -/
def seirPoint (p : ModelParameters α) (startDate : ℤ) (env : ℕ → α × α) (d : ℕ) :
    TrendDataPoint α :=
  let sf := (env d).1
  let nf := (env d).2
  let s := seirStateAt p env d
  { date := startDate + d
    susceptible := max 0 (jsRound (s.S * sf * nf))
    exposed := some (max 0 (jsRound (s.E * sf * nf)))
    infected := max 1 (jsRound (s.I * sf * nf))
    recovered := some (max 0 (jsRound (s.R * sf * nf)))
    totalPopulation := p.totalPopulation }

/-- `simulateSEIR`: one reported point per day `0, …, days`. -/
def simulateSEIR (p : ModelParameters α) (startDate : ℤ) (days : ℕ)
    (env : ℕ → α × α) : List (TrendDataPoint α) :=
  (List.range (days + 1)).map (seirPoint p startDate env)

/-- Valid model parameters: the ranges the parameter deriver guarantees
(rates inside the union of the per-variant clamp bands, a positive initial
count not exceeding the integer total population). -/
def ValidParams (p : ModelParameters α) : Prop :=
  1/1000 ≤ p.beta ∧ p.beta ≤ 7/10 ∧
  1/200 ≤ p.gamma ∧ p.gamma ≤ 3/20 ∧
  0 ≤ p.sigma.getD (1/10) ∧ p.sigma.getD (1/10) ≤ 1/4 ∧
  1 ≤ p.initialInfected ∧ p.initialInfected ≤ p.totalPopulation ∧
  ∃ n : ℤ, p.totalPopulation = (n : α)

/-! ## Noise-free conservation invariants (for Claim C1)

With noise disabled both modulation factors are 1, so the Euler updates
conserve `S + I` (resp. `S + E + I + R`) exactly and only the clamps can
disturb the sum.  The interval invariants below make this precise. -/

/-- Invariant of the noise-free SIS state: compartments within bounds and
the (pre-rounding) sum within `[N, N + 1]`. -/
def SisInv (N : α) (s : α × α) : Prop :=
  0 ≤ s.1 ∧ s.1 ≤ N ∧ 1 ≤ s.2 ∧ s.2 ≤ N ∧ N ≤ s.1 + s.2 ∧ s.1 + s.2 ≤ N + 1

/-- Invariant of the noise-free SEIR state: compartments within bounds and
the (pre-rounding) four-compartment sum within `[N, N + c]`, where `c`
accounts for the mass injected by the `max(1, ·)` floor on `I` (at most
`γ·dt` per substep). -/
def SeirInv (N c : α) (s : SeirState α) : Prop :=
  0 ≤ s.S ∧ 0 ≤ s.E ∧ 1 ≤ s.I ∧ 0 ≤ s.R ∧
  N ≤ s.S + s.E + s.I + s.R ∧ s.S + s.E + s.I + s.R ≤ N + c

/-- Concrete valid parameters over `ℚ` used by witnesses. -/
def sampleParams : ModelParameters ℚ :=
  ⟨1/10, 1/10, some (1/10), 1000, 5000000⟩

/-! ## Parameter deriver (source lines 167-243)

The deriver calls `Math.sin`, so this part of the embedding is instantiated
at `ℝ`. -/

/-- `MusicTrack` from `shared/api`. -/
structure MusicTrack (α : Type) where
  id : String
  title : String
  artist : String
  album : Option String
  releaseYear : Option ℤ
  genre : Option (List String)
  popularity : α

/-- JS 32-bit signed wrap, as produced by `a & a` and `a << 5`. -/
def toInt32 (x : ℤ) : ℤ := (x + 2^31) % 2^32 - 2^31

/-- One step of the track-seed hash (source lines 172-175):
`a = (a << 5) - a + charCode`, where `a << 5` coerces to int32 before the
shift-by-5 (multiplication by 32) and `a & a` coerces the result. -/
def hashStep (a : ℤ) (c : ℕ) : ℤ := toInt32 (toInt32 (a * 32) - a + c)

/-- The track seed: fold of `hashStep` over the UTF-16 code units of
`title ++ artist` starting from 0.  (For characters in the Basic
Multilingual Plane the code point given by `Char.toNat` equals the code
unit given by `charCodeAt`.) -/
def trackSeed (title artist : String) : ℤ :=
  ((title ++ artist).data.map Char.toNat).foldl hashStep 0

/-- `seededRandom` (source lines 178-181):
`x = sin(seed) * 10000; return x - Math.floor(x)`. -/
noncomputable def seededRandom (seed : ℝ) : ℝ :=
  Real.sin seed * 10000 - jsFloor (Real.sin seed * 10000)

/-- `generateModelParameters` (source lines 167-243); `currentYear` stands
for `new Date().getFullYear()` at the time of the call. -/
noncomputable def generateModelParameters (track : MusicTrack ℝ)
    (modelType : ModelType) (currentYear : ℤ) : ModelParameters ℝ :=
  let seed : ℝ := ((trackSeed track.title track.artist : ℤ) : ℝ)
  let popularity := track.popularity / 100
  let age := currentYear - track.releaseYear.getD 2020
  let isViral := (track.genre.getD []).contains ("Pop")
    || (track.genre.getD []).contains ("Alternative")
  let isClassic := 20 < age
  let isRecent := age ≤ 3
  let baseBeta :=
    if isClassic then 15/100 + seededRandom seed * (1/10)
    else if isRecent ∧ isViral = true then 4/10 + seededRandom seed * (2/10)
    else if isViral then 25/100 + seededRandom seed * (15/100)
    else 1/10 + seededRandom seed * (8/100)
  let baseGamma :=
    if isClassic then 2/100 + seededRandom (seed + 1) * (3/100)
    else if isRecent ∧ isViral = true then 8/100 + seededRandom (seed + 1) * (5/100)
    else if isViral then 4/100 + seededRandom (seed + 1) * (4/100)
    else 3/100 + seededRandom (seed + 1) * (2/100)
  let baseBeta2 := baseBeta * (1/2 + popularity * (1/2))
  let totalPopulation := 5000000 + jsFloor (seededRandom (seed + 2) * 5000000)
  let initialInfected :=
    jsFloor (popularity * 50000 + seededRandom (seed + 3) * 50000)
  match modelType with
  | ModelType.SIS =>
      { beta := max (1/1000) (min (6/10) baseBeta2)
        gamma := max (1/200) (min (3/20) baseGamma)
        sigma := none
        initialInfected := initialInfected
        totalPopulation := totalPopulation }
  | ModelType.SEIR =>
      { beta := max (1/1000) (min (7/10) (baseBeta2 * (11/10)))
        gamma := max (1/200) (min (12/100) (baseGamma * (9/10)))
        sigma := some (max (1/50) (min (1/4)
          (1/10 + popularity * (15/100) + seededRandom (seed + 4) * (1/10))))
        initialInfected := initialInfected
        totalPopulation := totalPopulation }

/-- A concrete track (the spec's `{title: "Test", artist: "Creator",
popularity: 80, releaseYear: currentYear, genre: ["Pop"]}`). -/
def sampleTrack : MusicTrack ℝ :=
  ⟨"id1", "Test", "Creator", none, some 2025, some ["Pop"], 80⟩

/-- A popularity-0 track whose title/artist hash is exactly −3, so the
deriver's initial-count draw is `seededRandom 0 = frac(sin 0 · 10⁴) = 0`. -/
def c7Track : MusicTrack ℝ :=
  ⟨"id3", "aepdynhx", "", none, some 2020, none, 0⟩

/-! ## Scenario-weighted forecaster (source lines 398-768)

The forecaster's per-day multiplier product (scenario `baseMultiplier`,
`volatilityMultiplier`, the seeded `noiseFactor`, the calendar
`timeMultiplier` and the 3-day-momentum `momentumMultiplier`, all applied to
`recentAverage`, source lines 487-670) involves `Math.exp`, `Math.sin`,
`Math.PI` and the wall-clock calendar; it is abstracted as an oracle
`mult : ℕ → α` giving the value inside `Math.round` at line 663 for each
day, and the scenario's `trendDirection` as an oracle `trendDir : ℕ → α`.
Everything downstream of these products — rounding, compartment derivation,
clamps, scenario selection, both smoothing passes and the final
`slice(1)` — is embedded from the source. -/

/-- The ten forecast scenarios (source lines 429-440), in insertion order
of the `scenarioWeights` object. -/
inductive Scenario
  | viral_breakthrough
  | organic_growth
  | cyclical_waves
  | steady_momentum
  | discovery_surge
  | playlist_boost
  | social_media_viral
  | algorithm_pick
  | comeback_story
  | underground_rise
deriving DecidableEq

/-- Scenario weights (source lines 443-454).  `popularity` is the
`track.popularity / 100` fraction, so the comparisons against 70, 60, 50
and 40 are taken literally from the source (several are constant for 0-100
scores). -/
def scenarioWeights (popularity : α) (isViral isClassic isRecent : Bool)
    (age : ℤ) : List (Scenario × α) :=
  [(Scenario.viral_breakthrough,
      if isRecent = true ∧ 70 < popularity then 25/100 else 5/100),
   (Scenario.organic_growth,
      if isClassic = true ∨ 60 < popularity then 2/10 else 15/100),
   (Scenario.cyclical_waves, if isClassic then 25/100 else 1/10),
   (Scenario.steady_momentum, if 50 < popularity then 2/10 else 15/100),
   (Scenario.discovery_surge, if isRecent then 15/100 else 5/100),
   (Scenario.playlist_boost, if isViral then 2/10 else 1/10),
   (Scenario.social_media_viral,
      if isRecent = true ∧ isViral = true then 3/10 else 8/100),
   (Scenario.algorithm_pick, if popularity < 50 then 15/100 else 5/100),
   (Scenario.comeback_story,
      if 10 < age ∧ age < 30 then 2/10 else 2/100),
   (Scenario.underground_rise, if popularity < 40 then 15/100 else 2/100)]

/-- Sum of the scenario weights (source lines 457-460). -/
def totalWeight (ws : List (Scenario × α)) : α := (ws.map Prod.snd).sum

/-- Scenario selection (source lines 465-476): walk the weights in
insertion order accumulating `cumulative`; the first entry with
`random ≤ cumulative` wins; the default is `steady_momentum`. -/
def selectScenario (random : α) : α → List (Scenario × α) → Scenario
  | _, [] => Scenario.steady_momentum
  | c, (s, w) :: rest =>
      if random ≤ c + w then s else selectScenario random (c + w) rest

/-- The forecaster's scenario choice for a track (source lines 400-478);
`rnd` is the `seededRandom` oracle. -/
def forecastScenario (track : MusicTrack α) (currentYear : ℤ) (rnd : ℤ → α) :
    Scenario :=
  let popularity := track.popularity / 100
  let age := currentYear - track.releaseYear.getD 2020
  let isViral := (track.genre.getD []).contains ("Pop")
    || (track.genre.getD []).contains ("Alternative")
  let isClassic := decide (20 < age)
  let isRecent := decide (age ≤ 3)
  let ws := scenarioWeights popularity isViral isClassic isRecent age
  let normalized := ws.map (fun sw => (sw.1, sw.2 / totalWeight ws))
  selectScenario (rnd (trackSeed track.title track.artist)) 0 normalized

/-- `maxChangePercent` (source lines 721-735): scenario names containing
"viral" or "surge" (viral_breakthrough, social_media_viral, discovery_surge)
allow 40%; names containing "growth" or "boost" (organic_growth,
playlist_boost) allow 30%; the remaining five allow 25%. -/
def maxChangePercent : Scenario → α
  | Scenario.viral_breakthrough => 4/10
  | Scenario.social_media_viral => 4/10
  | Scenario.discovery_surge => 4/10
  | Scenario.organic_growth => 3/10
  | Scenario.playlist_boost => 3/10
  | _ => 25/100

/-- `recoverySlowdown` (source lines 691-695): 0.7 for scenario names
containing "viral" or "surge", else 1. -/
def recoverySlowdown : Scenario → α
  | Scenario.viral_breakthrough => 7/10
  | Scenario.social_media_viral => 7/10
  | Scenario.discovery_surge => 7/10
  | _ => 1

/-- One raw prediction point for day `day` (source lines 483-714).
`newInfected` is `Math.round` of the multiplier product (`mult day`); the
compartments are derived exactly as the source does: SIS sets
`susceptible = max(0, round(N − newInfected))`; SEIR derives exposed and
recovered from `newInfected`, `dayProgress`, the exposure rate and the
scenario slowdown, and recomputes susceptible from the total. -/
def rawPoint (modelType : ModelType) (p : ModelParameters α)
    (popularity : α) (scenario : Scenario) (currentDate : ℤ)
    (predictionDays : ℕ) (mult trendDir : ℕ → α) (day : ℕ) :
    TrendDataPoint α :=
  let dayProgress : α := (day : α) / (predictionDays : α)
  let newInfected := jsRound (mult day)
  match modelType with
  | ModelType.SIS =>
      { date := currentDate + day
        susceptible := max 0 (jsRound (p.totalPopulation - newInfected))
        exposed := none
        infected := max 1 newInfected
        recovered := none
        totalPopulation := p.totalPopulation }
  | ModelType.SEIR =>
      let exposureRate := 2/10 + popularity / 100 * (3/10)
        + (if 9/10 < trendDir day then 2/10 else 0)
      let newExposed := jsRound (newInfected * exposureRate
        * (1 - dayProgress * (3/10)))
      let baseRecovered := jsRound (newInfected
        * (1/2 + dayProgress * (3/2)) * recoverySlowdown scenario)
      let newRecovered := max 0 baseRecovered
      let totalKnown := newInfected + newExposed + newRecovered
      let newSusceptible := jsRound (p.totalPopulation - totalKnown)
      { date := currentDate + day
        susceptible := max 0 newSusceptible
        exposed := some newExposed
        infected := max 1 newInfected
        recovered := some newRecovered
        totalPopulation := p.totalPopulation }

/-- The raw prediction list: days `1, …, predictionDays` (source line 483). -/
def rawPredictions (modelType : ModelType) (p : ModelParameters α)
    (popularity : α) (scenario : Scenario) (currentDate : ℤ)
    (predictionDays : ℕ) (mult trendDir : ℕ → α) :
    List (TrendDataPoint α) :=
  (List.range predictionDays).map
    (fun k => rawPoint modelType p popularity scenario currentDate
      predictionDays mult trendDir (k + 1))

/-- The day-over-day clamp at one point (source lines 737-744): when the
change from the previous (already clamped) infected value exceeds
`prev · pct`, replace it by `round(prev + prev·pct·direction)`; only the
`infected` field is written. -/
def clampStep (pct prevI : α) (pt : TrendDataPoint α) : TrendDataPoint α :=
  let maxChange := prevI * pct
  if maxChange < |pt.infected - prevI| then
    { pt with infected :=
        jsRound (prevI + maxChange * (if prevI < pt.infected then 1 else -1)) }
  else pt

/-- Pass 1 from index 1 onwards, threading the already-clamped previous
infected value. -/
def clampPass1Go (pct : α) : α → List (TrendDataPoint α) →
    List (TrendDataPoint α)
  | _, [] => []
  | prevI, pt :: rest =>
      let pt2 := clampStep pct prevI pt
      pt2 :: clampPass1Go pct pt2.infected rest

/-- Pass 1 (source lines 717-745): the loop starts at index 1, so the head
is never modified. -/
def clampPass1 (pct : α) : List (TrendDataPoint α) → List (TrendDataPoint α)
  | [] => []
  | pt :: rest => pt :: clampPass1Go pct pt.infected rest

/-- The outlier smoothing at one interior point (source lines 753-764):
with previous infected `aI` (possibly already smoothed) and untouched next
point `c`, if the value deviates from the local linear interpolation
`expected = aI + (c − aI)/2` by more than half of it (and the expectation is
positive), blend 80% of the value with 20% of the expectation. -/
def outlierStep (aI : α) (pt c : TrendDataPoint α) : TrendDataPoint α :=
  let localTrend := (c.infected - aI) / 2
  let expected := aI + localTrend
  if expected * (1/2) < |pt.infected - expected| ∧ 0 < expected then
    { pt with infected := jsRound (pt.infected * (8/10) + expected * (2/10)) }
  else pt

/-- Pass 2 from index 2 onwards; the last element (`i < length − 1`) is
never modified. -/
def outlierPass2Go : α → List (TrendDataPoint α) → List (TrendDataPoint α)
  | _, [] => []
  | _, [last] => [last]
  | prevI, pt :: c :: rest =>
      let pt2 := outlierStep prevI pt c
      pt2 :: outlierPass2Go pt2.infected (c :: rest)

/-- Pass 2 (source lines 748-765): the loop runs `i` from 2 to
`length − 2`, so the first two entries and the last entry are never
modified. -/
def outlierPass2 : List (TrendDataPoint α) → List (TrendDataPoint α)
  | [] => []
  | [a] => [a]
  | a :: b :: rest => a :: b :: outlierPass2Go b.infected rest

/-- The forecast stage of `handleTrendAnalysis` (source lines 398-768):
select the scenario, generate raw daily points for days
`1, …, predictionDays`, apply the day-over-day clamp, apply the
local-outlier smoothing, and drop the first point (`predictions.slice(1)`,
source line 768). -/
def forecast (track : MusicTrack α) (p : ModelParameters α)
    (currentYear currentDate : ℤ) (predictionDays : ℕ) (rnd : ℤ → α)
    (mult trendDir : ℕ → α) (modelType : ModelType) :
    List (TrendDataPoint α) :=
  let scenario := forecastScenario track currentYear rnd
  let raw := rawPredictions modelType p (track.popularity / 100) scenario
    currentDate predictionDays mult trendDir
  let s1 := clampPass1 (maxChangePercent scenario) raw
  let s2 := outlierPass2 s1
  s2.drop 1

/-- Concrete classic track (age 25, no genres, popularity 50) used by the
counterexamples; the forecaster's seeded draw oracle is the constant 3/10,
which selects the `cyclical_waves` scenario (25% clamp). -/
def cTrack : MusicTrack ℚ := ⟨"id2", "Old", "Song", none, some 2000, none, 50⟩

/-- Concrete model parameters for the counterexamples. -/
def cParams : ModelParameters ℚ := ⟨1/10, 1/10, none, 1000, 5000000⟩

/-- Constant seeded-draw oracle. -/
def cRnd : ℤ → ℚ := fun _ => 3/10

/-- Multiplier-product oracle for the C3 counterexample. -/
def cMult : ℕ → ℚ := fun d => if d ≤ 2 then 2 else 3

/-- Trend-direction oracle (irrelevant in the SIS runs). -/
def cTrend : ℕ → ℚ := fun _ => 1

/-- C4 counterexample oracle: a jump from 100 to 200 that the clamp pass
rewrites. -/
def c4Mult : ℕ → ℚ := fun d => if d = 1 then 100 else 200

/-- Constant multiplier oracle (no jumps, so smoothing never fires). -/
def c4bMult : ℕ → ℚ := fun _ => 100

/-! ## Insight analyzer (source lines 245-338)

The `creatorRecommendation` part of the analyzer calls `Math.random()` for
its confidence score and is not part of any claim; the deterministic
insight fields are embedded below.  Division by zero yields 0 in this
embedding (JS would produce Infinity or NaN); the claims state their
hypotheses on the embedded metric values, which agree with JS whenever the
divisors are nonzero. -/

/-- The `currentTrend` classification. -/
inductive Trend
  | rising
  | declining
  | stable
deriving DecidableEq

/-- The six future-outlook categories (source lines 298-304). -/
inductive Outlook
  | viral_potential
  | steady_decline
  | comeback_likely
  | stable_niche
  | explosive_growth
  | sustained_momentum
deriving DecidableEq

/-- `currentListeners` (source line 275):
`data[data.length − 1]?.infected || 0` (the JS `|| 0` maps both a missing
entry and a zero count to 0). -/
def currentListeners (data : List (TrendDataPoint α)) : α :=
  (data.getLast?.map TrendDataPoint.infected).getD 0

/-- `Math.max` over the predictions' infected values (source line 278).
JS yields −∞ on an empty spread; the analyzer is only reached with
nonempty predictions, and 0 stands in for the empty case. -/
def futureMax : List (TrendDataPoint α) → α
  | [] => 0
  | pt :: rest => (rest.map TrendDataPoint.infected).foldl max pt.infected

/-- `Math.min` over the predictions' infected values (source line 279). -/
def futureMin : List (TrendDataPoint α) → α
  | [] => 0
  | pt :: rest => (rest.map TrendDataPoint.infected).foldl min pt.infected

/-- Mean infected count of a list (source lines 280-281, 292-295). -/
def avgInfected (l : List (TrendDataPoint α)) : α :=
  (l.map TrendDataPoint.infected).sum / (l.length : α)

/-- `futureEnd` (source lines 276-277):
`predictions[…]?.infected || currentListeners` — a missing last entry or a
zero count falls back to `currentListeners`. -/
def futureEnd (data preds : List (TrendDataPoint α)) : α :=
  match preds.getLast? with
  | none => currentListeners data
  | some pt => if pt.infected = 0 then currentListeners data else pt.infected

/-- `growthPotential = futureMax / currentListeners` (source line 284). -/
def growthPotential (data preds : List (TrendDataPoint α)) : α :=
  futureMax preds / currentListeners data

/-- `volatilityFactor = (futureMax − futureMin) / futureAverage`
(source line 285). -/
def volatilityFactor (preds : List (TrendDataPoint α)) : α :=
  (futureMax preds - futureMin preds) / avgInfected preds

/-- `endTrend = futureEnd / currentListeners` (source line 286). -/
def endTrend (data preds : List (TrendDataPoint α)) : α :=
  futureEnd data preds / currentListeners data

/-- `overallTrend = futureAverage / currentListeners` (source line 287). -/
def overallTrend (data preds : List (TrendDataPoint α)) : α :=
  avgInfected preds / currentListeners data

/-- `momentum` (source lines 289-296): second-half average over first-half
average of the predictions, split at `⌊length / 2⌋`. -/
def momentum (preds : List (TrendDataPoint α)) : α :=
  avgInfected (preds.drop (preds.length / 2))
    / avgInfected (preds.take (preds.length / 2))

/-- The ordered first-match-wins outlook chain (source lines 307-319). -/
def outlookOf (data preds : List (TrendDataPoint α)) : Outlook :=
  if 5/2 < growthPotential data preds ∧ 4/5 < volatilityFactor preds then
    Outlook.explosive_growth
  else if 8/5 < growthPotential data preds ∧ 11/10 < momentum preds then
    Outlook.viral_potential
  else if 6/5 < overallTrend data preds ∧ 19/20 < momentum preds then
    Outlook.sustained_momentum
  else if endTrend data preds < 4/5 ∧ momentum preds < 9/10 ∧
      growthPotential data preds < 11/10 then
    Outlook.steady_decline
  else if 2/5 < volatilityFactor preds ∧
      currentListeners data * (7/5) < futureMax preds then
    Outlook.comeback_likely
  else Outlook.stable_niche

/-- Global peak over historical and predicted data (source lines 252-261):
strict comparison, so the first maximum wins; JS reads `allData[0]` and the
fold starts from it (the analyzer is only reached with nonempty data; the
pair `(0, 0)` stands in for the empty case). -/
def peakPair : List (TrendDataPoint α) → ℤ × α
  | [] => (0, 0)
  | pt :: rest =>
      rest.foldl
        (fun acc q => if acc.2 < q.infected then (q.date, q.infected) else acc)
        (pt.date, pt.infected)

/-- The 14-day trend slope and its classification (source lines 263-272). -/
def currentTrendOf (data : List (TrendDataPoint α)) : Trend :=
  let recentData := data.drop (data.length - 14)
  let trendSlope : α :=
    if 1 < recentData.length then
      (((recentData.getLast?.map TrendDataPoint.infected).getD 0)
        - ((recentData.head?.map TrendDataPoint.infected).getD 0))
        / (recentData.length : α)
    else 0
  if 50 < trendSlope then Trend.rising
  else if trendSlope < -50 then Trend.declining
  else Trend.stable

/-- The deterministic insight fields (source lines 331-337). -/
structure Insights (α : Type) where
  peakDate : ℤ
  peakListeners : α
  currentTrend : Trend
  futureOutlook : Outlook
deriving DecidableEq

/-- `analyzeInsights` (source lines 245-338); `modelType` is accepted but
never read by the deterministic fields, as in the source. -/
def analyzeInsights (data preds : List (TrendDataPoint α))
    (modelType : ModelType) : Insights α :=
  { peakDate := (peakPair (data ++ preds)).1
    peakListeners := (peakPair (data ++ preds)).2
    currentTrend := currentTrendOf data
    futureOutlook := outlookOf data preds }

/-- Historical data for the C9 witness: one point with 100 listeners. -/
def c9Data : List (TrendDataPoint ℚ) := [⟨0, 0, none, 100, none, 5000000⟩]

/-- Predictions for the C9 witness: max 300 (growth potential 3), range
290 over average 155 (volatility 58/31 ≈ 1.87). -/
def c9Preds : List (TrendDataPoint ℚ) :=
  [⟨1, 0, none, 300, none, 5000000⟩, ⟨2, 0, none, 10, none, 5000000⟩]

/-! ## Request handler (source lines 340-787) -/

/-- The request envelope consumed by `handleTrendAnalysis` (source lines
342-348). -/
structure TrendRequest (α : Type) where
  trackId : String
  modelType : ModelType
  predictionDays : ℕ
  trackData : Option (MusicTrack α)

/-- The response record (source lines 773-780). -/
structure TrendAnalysisResponse (α : Type) where
  track : MusicTrack α
  modelType : ModelType
  parameters : ModelParameters α
  historicalData : List (TrendDataPoint α)
  predictions : List (TrendDataPoint α)
  insights : Insights α

/-- A handler outcome: an error status with message, or the response. -/
inductive HandlerResult (α : Type)
  | error (status : ℕ) (message : String)
  | ok (resp : TrendAnalysisResponse α)

/-- `handleTrendAnalysis` (source lines 340-787): resolve the track
(directly supplied payload preferred, then the cache; the cache write on a
supplied payload is a side effect on the excluded collaborator), answer 404
when neither exists, otherwise derive parameters, simulate 180 days of
history (noise enabled — `env` is the seasonal/noise oracle), forecast and
analyze.  The seeded draws of the forecaster are the real `seededRandom`. -/
noncomputable def handleTrendAnalysis (req : TrendRequest ℝ)
    (cache : String → Option (MusicTrack ℝ)) (currentYear currentDate : ℤ)
    (env : ℕ → ℝ × ℝ) (mult trendDir : ℕ → ℝ) : HandlerResult ℝ :=
  match req.trackData.orElse (fun _ => cache req.trackId) with
  | none =>
      HandlerResult.error 404
        ("Track not found. Please search for the track again.")
  | some track =>
      let parameters := generateModelParameters track req.modelType currentYear
      let historicalData :=
        match req.modelType with
        | ModelType.SIS => simulateSIS parameters (currentDate - 180) 180 env
        | ModelType.SEIR => simulateSEIR parameters (currentDate - 180) 180 env
      let predictions := forecast track parameters currentYear currentDate
        req.predictionDays (fun s => seededRandom (s : ℝ)) mult trendDir
        req.modelType
      HandlerResult.ok ⟨track, req.modelType, parameters, historicalData,
        predictions, analyzeInsights historicalData predictions req.modelType⟩

/-! ## Theorems -/

/-! ## Rounding helpers -/

/-- `jsRound` of a nonnegative number is nonnegative. -/
theorem jsRound_nonneg {x : α} (h : 0 ≤ x) : 0 ≤ jsRound x := by
  unfold jsRound
  have : (0 : ℤ) ≤ ⌊x + 1/2⌋ := Int.le_floor.mpr (by push_cast; linarith)
  exact_mod_cast this

/-- `jsRound` does not overshoot an integer upper bound. -/
theorem jsRound_le_intCast {x : α} {n : ℤ} (h : x ≤ (n : α)) :
    jsRound x ≤ (n : α) := by
  unfold jsRound
  have : ⌊x + 1/2⌋ ≤ n := Int.floor_le_iff.mpr (by push_cast; linarith)
  exact_mod_cast this

/-- `jsRound` of a number that is at least 1 is at least 1. -/
theorem one_le_jsRound {x : α} (h : 1 ≤ x) : 1 ≤ jsRound x := by
  unfold jsRound
  have : (1 : ℤ) ≤ ⌊x + 1/2⌋ := Int.le_floor.mpr (by push_cast; linarith)
  exact_mod_cast this

/-- Upper error bound for `jsRound`. -/
theorem jsRound_le_add_half (x : α) : jsRound x ≤ x + 1/2 :=
  Int.floor_le _

/-- Lower error bound for `jsRound`. -/
theorem sub_half_lt_jsRound (x : α) : x - 1/2 < jsRound x := by
  have := Int.sub_one_lt_floor (x + 1/2)
  unfold jsRound
  linarith

/-- One noise-free SIS substep preserves the invariant (for rates inside
the deriver's clamp bands). -/
theorem sisSub_inv {beta gamma N : α} (hb0 : 0 ≤ beta) (hb : beta ≤ 7/10)
    (hg0 : 0 ≤ gamma) (hg : gamma ≤ 3/20) (hN : 1 ≤ N) {s : α × α}
    (h : SisInv N s) : SisInv N (sisSub beta gamma N s) := by
  simp only [SisInv] at h ⊢
  obtain ⟨hS0, hSN, hI1, hIN, hT1, hT2⟩ := h
  have hN0 : (0 : α) < N := lt_of_lt_of_le one_pos hN
  have hI0 : (0 : α) ≤ s.2 := le_trans zero_le_one hI1
  have hD0 : 0 ≤ beta * s.1 * s.2 / N := by positivity
  have hDS : beta * s.1 * s.2 / N ≤ 7/10 * s.1 := by
    rw [div_le_iff hN0]
    nlinarith [mul_nonneg (sub_nonneg.mpr hb) (mul_nonneg hS0 hI0),
      mul_nonneg hS0 (sub_nonneg.mpr hIN)]
  have hgI0 : 0 ≤ gamma * s.2 := mul_nonneg hg0 hI0
  have hgI : gamma * s.2 ≤ 3/20 * s.2 := mul_le_mul_of_nonneg_right hg hI0
  simp only [sisSub]
  set A := s.1 + (gamma * s.2 - beta * s.1 * s.2 / N) * (1/10) with hAdef
  set B := s.2 + (beta * s.1 * s.2 / N - gamma * s.2) * (1/10) with hBdef
  have hAB : A + B = s.1 + s.2 := by rw [hAdef, hBdef]; ring
  have hA0 : 0 ≤ A := by rw [hAdef]; linarith
  have hB1 : 197/200 * s.2 ≤ B := by rw [hBdef]; linarith
  have hBpos : 197/200 ≤ B := le_trans (by linarith) hB1
  have hmaxA : max 0 (min N A) = min N A := max_eq_right (le_min hN0.le hA0)
  rcases le_total A N with hAle | hAge
  · rw [hmaxA, min_eq_right hAle]
    rcases le_total B N with hBle | hBge
    · rw [min_eq_right hBle]
      rcases le_total 1 B with h1B | hB1u
      · rw [max_eq_right h1B]
        exact ⟨hA0, hAle, h1B, hBle, by linarith, by linarith⟩
      · rw [max_eq_left hB1u]
        exact ⟨hA0, hAle, le_refl 1, hN, by linarith, by linarith⟩
    · rw [min_eq_left hBge, max_eq_right hN]
      exact ⟨hA0, hAle, hN, le_refl N, by linarith, by linarith⟩
  · rw [hmaxA, min_eq_left hAge]
    have hBle1 : B ≤ 1 := by linarith
    rw [min_eq_right (le_trans hBle1 hN), max_eq_left hBle1]
    exact ⟨hN0.le, le_refl N, le_refl 1, hN, by linarith, by linarith⟩

/-- The noise-free SIS state satisfies the invariant on every day. -/
theorem sisStateAt_inv (p : ModelParameters α) (hp : ValidParams p) (d : ℕ) :
    SisInv p.totalPopulation (sisStateAt p noiseOff d) := by
  obtain ⟨hb0, hb, hg0, hg, -, -, hI1, hIN, -⟩ := hp
  have hN : 1 ≤ p.totalPopulation := le_trans hI1 hIN
  induction d with
  | zero =>
      simp only [sisStateAt, SisInv]
      exact ⟨by linarith, by linarith, hI1, hIN, by linarith, by linarith⟩
  | succ d ih =>
      simp only [sisStateAt, sisDay, noiseOff, mul_one, div_one]
      have key : ∀ (n : ℕ) (s : α × α), SisInv p.totalPopulation s →
          SisInv p.totalPopulation
            ((sisSub p.beta p.gamma p.totalPopulation)^[n] s) := by
        intro n
        induction n with
        | zero => intro s hs; simpa using hs
        | succ n ihn =>
            intro s hs
            rw [Function.iterate_succ_apply]
            exact ihn _ (sisSub_inv (by linarith) hb (by linarith) hg hN hs)
      exact key 10 _ ih

set_option maxHeartbeats 1000000 in
/-- One noise-free SEIR substep preserves the invariant, growing the drift
budget by `γ·dt = γ/10`. -/
theorem seirSub_inv {beta gamma sigma N c : α} (hb0 : 0 ≤ beta)
    (hb : beta ≤ 7/10) (hg0 : 0 ≤ gamma) (hg : gamma ≤ 3/20) (hs0 : 0 ≤ sigma)
    (hs : sigma ≤ 1/2) (hN : 1 ≤ N) (hc0 : 0 ≤ c) (hcN : c ≤ N)
    {s : SeirState α} (h : SeirInv N c s) :
    SeirInv N (c + gamma * (1/10)) (seirSub beta gamma sigma N s) := by
  simp only [SeirInv] at h ⊢
  obtain ⟨hS0, hE0, hI1, hR0, hT1, hT2⟩ := h
  have hN0 : (0 : α) < N := lt_of_lt_of_le one_pos hN
  have hI0 : (0 : α) ≤ s.I := le_trans zero_le_one hI1
  have hI2N : s.I ≤ 2 * N := by linarith
  have hD0 : 0 ≤ beta * s.S * s.I / N := by positivity
  have hbI : beta * s.I ≤ 10 * N := by
    have h1 : beta * s.I ≤ 7/10 * s.I := mul_le_mul_of_nonneg_right hb hI0
    linarith
  have hDS : beta * s.S * s.I / N * (1/10) ≤ s.S := by
    rw [div_mul_eq_mul_div, div_le_iff₀ hN0]
    have h2 : beta * s.S * s.I = s.S * (beta * s.I) := by ring
    rw [h2]
    have h3 : s.S * (beta * s.I) ≤ s.S * (10 * N) :=
      mul_le_mul_of_nonneg_left hbI hS0
    nlinarith
  have hsE0 : 0 ≤ sigma * s.E := mul_nonneg hs0 hE0
  have hsE : sigma * s.E ≤ 1/2 * s.E := mul_le_mul_of_nonneg_right hs hE0
  have hgI0 : 0 ≤ gamma * s.I := mul_nonneg hg0 hI0
  have hgI : gamma * s.I ≤ 3/20 * s.I := mul_le_mul_of_nonneg_right hg hI0
  simp only [seirSub]
  obtain ⟨A, hAdef⟩ : ∃ x, x = s.S + -beta * s.S * s.I / N * (1/10) := ⟨_, rfl⟩
  obtain ⟨E2, hEdef⟩ :
      ∃ x, x = s.E + (beta * s.S * s.I / N - sigma * s.E) * (1/10) := ⟨_, rfl⟩
  obtain ⟨I2, hIdef⟩ :
      ∃ x, x = s.I + (sigma * s.E - gamma * s.I) * (1/10) := ⟨_, rfl⟩
  obtain ⟨R2, hRdef⟩ : ∃ x, x = s.R + gamma * s.I * (1/10) := ⟨_, rfl⟩
  rw [← hAdef, ← hEdef, ← hIdef, ← hRdef]
  have hA0 : 0 ≤ A := by
    rw [hAdef]
    have hAeq : s.S + -beta * s.S * s.I / N * (1/10)
        = s.S - beta * s.S * s.I / N * (1/10) := by ring
    rw [hAeq]
    linarith
  have hE20 : 0 ≤ E2 := by rw [hEdef]; linarith
  have hI2lb : 197/200 ≤ I2 := by rw [hIdef]; linarith
  have hR20 : 0 ≤ R2 := by rw [hRdef]; linarith
  have hsum : A + E2 + I2 + R2 = s.S + s.E + s.I + s.R := by
    rw [hAdef, hEdef, hIdef, hRdef]; ring
  have hmaxle : max 1 I2 ≤ I2 + gamma * (1/10) := by
    rcases le_total 1 I2 with h1 | h1
    · rw [max_eq_right h1]; linarith
    · rw [max_eq_left h1]
      rw [hIdef]
      have hfac : (0:α) ≤ 1 - gamma * (1/10) := by linarith
      have hprod : 0 ≤ (s.I - 1) * (1 - gamma * (1/10)) :=
        mul_nonneg (sub_nonneg.mpr hI1) hfac
      have hexp : (s.I - 1) * (1 - gamma * (1/10))
          = s.I - 1 - gamma * s.I * (1/10) + gamma * (1/10) := by ring
      rw [hexp] at hprod
      linarith
  have hmaxge : I2 ≤ max 1 I2 := le_max_right 1 I2
  refine ⟨le_max_left 0 A, le_max_left 0 E2, le_max_left 1 I2, le_max_left 0 R2,
    ?_, ?_⟩
  · rw [max_eq_right hA0, max_eq_right hE20, max_eq_right hR20]
    linarith
  · rw [max_eq_right hA0, max_eq_right hE20, max_eq_right hR20]
    linarith

/-- Iterating the noise-free SEIR substep `n` times grows the drift budget
by `n·γ/10`. -/
theorem seirSub_iterate_inv {beta gamma sigma N : α} (hb0 : 0 ≤ beta)
    (hb : beta ≤ 7/10) (hg0 : 0 ≤ gamma) (hg : gamma ≤ 3/20) (hs0 : 0 ≤ sigma)
    (hs : sigma ≤ 1/2) (hN : 1 ≤ N) :
    ∀ (n : ℕ) (c : α) (s : SeirState α), 0 ≤ c →
      c + (n : α) * (gamma * (1/10)) ≤ N → SeirInv N c s →
      SeirInv N (c + (n : α) * (gamma * (1/10)))
        ((seirSub beta gamma sigma N)^[n] s) := by
  intro n
  induction n with
  | zero => intro c s hc0 _ h; simpa using h
  | succ n ihn =>
      intro c s hc0 hcn h
      rw [Function.iterate_succ_apply]
      have hg10 : (0:α) ≤ gamma * (1/10) := by linarith
      have hn0 : (0:α) ≤ (n : α) := Nat.cast_nonneg n
      have hnprod : 0 ≤ (n : α) * (gamma * (1/10)) := mul_nonneg hn0 hg10
      have hcn' : c + gamma * (1/10) + (n : α) * (gamma * (1/10)) ≤ N := by
        push_cast at hcn; linarith
      have hcN : c ≤ N := by push_cast at hcn; linarith
      have h1 := seirSub_inv hb0 hb hg0 hg hs0 hs hN hc0 hcN h
      have h2 := ihn (c + gamma * (1/10)) (seirSub beta gamma sigma N s)
        (by linarith) hcn' h1
      have heq : c + gamma * (1/10) + (n : α) * (gamma * (1/10))
          = c + ((n + 1 : ℕ) : α) * (gamma * (1/10)) := by push_cast; ring
      rw [heq] at h2
      exact h2

/-- The noise-free SEIR state satisfies the invariant with drift budget
`d·γ` on every day `d` of a `days`-day run, provided `days·γ ≤ N` (amply
true for the repository's run of 180 days). -/
theorem seirStateAt_inv (p : ModelParameters α) (hp : ValidParams p)
    (days : ℕ) (hdays : (days : α) * p.gamma ≤ p.totalPopulation) :
    ∀ d, d ≤ days →
      SeirInv p.totalPopulation ((d : α) * p.gamma)
        (seirStateAt p noiseOff d) := by
  obtain ⟨hb0, hb, hg0, hg, hs0, hs, hI1, hIN, n, hn⟩ := hp
  have hN : 1 ≤ p.totalPopulation := le_trans hI1 hIN
  have hg0' : (0:α) ≤ p.gamma := by linarith
  intro d
  induction d with
  | zero =>
      intro _
      simp only [seirStateAt, seirInit, SeirInv, Nat.cast_zero, zero_mul]
      exact ⟨by linarith, le_refl 0, hI1, le_refl 0, by linarith, by linarith⟩
  | succ d ih =>
      intro hd
      have hd' : d ≤ days := Nat.le_of_succ_le hd
      have hih := ih hd'
      simp only [seirStateAt, seirDay, noiseOff, mul_one, div_one]
      have hs0' : 0 ≤ p.sigma.getD (1/10) * (4/5 + 2/5 * 1) :=
        mul_nonneg hs0 (by norm_num)
      have hs' : p.sigma.getD (1/10) * (4/5 + 2/5 * 1) ≤ 1/2 := by
        have := mul_le_mul_of_nonneg_right hs
          (by norm_num : (0:α) ≤ 4/5 + 2/5 * 1)
        nlinarith
      have hdg0 : (0:α) ≤ (d : α) * p.gamma :=
        mul_nonneg (Nat.cast_nonneg d) hg0'
      have hcast : ((d:α) + 1) ≤ (days : α) := by
        have := Nat.cast_le (α := α) |>.mpr hd
        push_cast at this
        linarith
      have hbound : (d : α) * p.gamma + (10 : ℕ) * (p.gamma * (1/10))
          ≤ p.totalPopulation := by
        push_cast
        nlinarith [mul_le_mul_of_nonneg_right hcast hg0']
      have key := seirSub_iterate_inv (by linarith) hb (by linarith) hg hs0'
        (by simpa using hs') hN 10 ((d:α) * p.gamma) (seirStateAt p noiseOff d)
        hdg0 hbound hih
      have heq : (d : α) * p.gamma + ((10 : ℕ) : α) * (p.gamma * (1/10))
          = ((d + 1 : ℕ) : α) * p.gamma := by push_cast; ring
      rw [heq] at key
      convert key using 2
      norm_num

/-- C1: for every valid `ModelParameters`, `simulateSIS` and `simulateSEIR`
with noise disabled produce, at every reported day, compartment counts whose
sum is within a small rounding tolerance of `totalPopulation`: for SIS
`susceptible + infected` is within 2 of `totalPopulation` at every day; for
SEIR the four-compartment sum on day `d` is within `2 + d·γ` of
`totalPopulation` (the `max(1, ·)` floor on `I` can inject up to `γ·dt` of
mass per substep, at most `d·γ` by day `d`; the rounding of the four
reported values accounts for at most 2 more). -/
theorem c1_population_conservation (p : ModelParameters α) (hp : ValidParams p)
    (startDate : ℤ) (days : ℕ)
    (hdays : (days : α) * p.gamma ≤ p.totalPopulation) :
    (∀ pt ∈ simulateSIS p startDate days noiseOff,
        |pt.susceptible + pt.infected - p.totalPopulation| ≤ 2) ∧
    (∀ (d : ℕ) (pt : TrendDataPoint α),
        (simulateSEIR p startDate days noiseOff).get? d = some pt →
        |compartmentSum pt - p.totalPopulation| ≤ 2 + (d : α) * p.gamma) := by
  obtain ⟨hb0, hb, hg0, hg, hs0, hs, hI1, hIN, n, hn⟩ := hp
  have hN1 : 1 ≤ p.totalPopulation := le_trans hI1 hIN
  constructor
  · intro pt hpt
    simp only [simulateSIS, List.mem_map, List.mem_range] at hpt
    obtain ⟨d, -, rfl⟩ := hpt
    have hinv := sisStateAt_inv p ⟨hb0, hb, hg0, hg, hs0, hs, hI1, hIN, n, hn⟩ d
    simp only [SisInv] at hinv
    obtain ⟨hS0, hSN, hI1s, hINs, hT1, hT2⟩ := hinv
    simp only [sisPoint, noiseOff, mul_one]
    have hrS0 : 0 ≤ jsRound (sisStateAt p noiseOff d).1 := jsRound_nonneg hS0
    have hrSN : jsRound (sisStateAt p noiseOff d).1 ≤ p.totalPopulation := by
      rw [hn]
      exact jsRound_le_intCast (hn ▸ hSN)
    have hrI1 : (1:α) ≤ jsRound (sisStateAt p noiseOff d).2 :=
      one_le_jsRound hI1s
    have hrIN : jsRound (sisStateAt p noiseOff d).2 ≤ p.totalPopulation := by
      rw [hn]
      exact jsRound_le_intCast (hn ▸ hINs)
    rw [min_eq_right hrSN, max_eq_right hrS0, min_eq_right hrIN,
      max_eq_right hrI1]
    have e1 := jsRound_le_add_half (sisStateAt p noiseOff d).1
    have e2 := sub_half_lt_jsRound (sisStateAt p noiseOff d).1
    have e3 := jsRound_le_add_half (sisStateAt p noiseOff d).2
    have e4 := sub_half_lt_jsRound (sisStateAt p noiseOff d).2
    rw [abs_le]
    constructor <;> linarith
  · intro d pt hpt
    by_cases hlt : d < days + 1
    · simp only [simulateSEIR] at hpt
      rw [List.get?_map, List.get?_range hlt] at hpt
      rw [Option.map_some'] at hpt
      simp only [Option.some.injEq] at hpt
      subst hpt
      have hd : d ≤ days := Nat.lt_succ_iff.mp hlt
      have hinv := seirStateAt_inv p
        ⟨hb0, hb, hg0, hg, hs0, hs, hI1, hIN, n, hn⟩ days hdays d hd
      simp only [SeirInv] at hinv
      obtain ⟨hS0, hE0, hI1s, hR0, hT1, hT2⟩ := hinv
      simp only [compartmentSum, seirPoint, noiseOff, mul_one, Option.getD_some]
      rw [max_eq_right (jsRound_nonneg hS0), max_eq_right (jsRound_nonneg hE0),
        max_eq_right (jsRound_nonneg hR0), max_eq_right (one_le_jsRound hI1s)]
      have e1 := jsRound_le_add_half (seirStateAt p noiseOff d).S
      have e2 := sub_half_lt_jsRound (seirStateAt p noiseOff d).S
      have e3 := jsRound_le_add_half (seirStateAt p noiseOff d).E
      have e4 := sub_half_lt_jsRound (seirStateAt p noiseOff d).E
      have e5 := jsRound_le_add_half (seirStateAt p noiseOff d).I
      have e6 := sub_half_lt_jsRound (seirStateAt p noiseOff d).I
      have e7 := jsRound_le_add_half (seirStateAt p noiseOff d).R
      have e8 := sub_half_lt_jsRound (seirStateAt p noiseOff d).R
      have hdg0 : (0:α) ≤ (d : α) * p.gamma :=
        mul_nonneg (Nat.cast_nonneg d) (by linarith)
      rw [abs_le]
      constructor <;> linarith
    · exfalso
      have hnone : (simulateSEIR p startDate days noiseOff).get? d = none := by
        rw [List.get?_eq_none]
        simpa [simulateSEIR] using Nat.le_of_not_lt hlt
      rw [hnone] at hpt
      cases hpt

/-- `sampleParams` is valid. -/
theorem sampleParams_valid : ValidParams sampleParams := by
  refine ⟨?_, ?_, ?_, ?_, ?_, ?_, ?_, ?_, ⟨5000000, ?_⟩⟩ <;>
    norm_num [sampleParams, ValidParams]

/-- Witness for C1: the theorem applied at concrete valid parameters and the
repository's 180-day historical run. -/
theorem c1_population_conservation_witness :
    (ValidParams sampleParams ∧
      ((180 : ℕ) : ℚ) * sampleParams.gamma ≤ sampleParams.totalPopulation) ∧
    ((∀ pt ∈ simulateSIS sampleParams 0 180 noiseOff,
        |pt.susceptible + pt.infected - sampleParams.totalPopulation| ≤ 2) ∧
     (∀ (d : ℕ) (pt : TrendDataPoint ℚ),
        (simulateSEIR sampleParams 0 180 noiseOff).get? d = some pt →
        |compartmentSum pt - sampleParams.totalPopulation| ≤
          2 + (d : ℚ) * sampleParams.gamma)) :=
  ⟨⟨sampleParams_valid, by norm_num [sampleParams]⟩,
    c1_population_conservation sampleParams sampleParams_valid 0 180
      (by norm_num [sampleParams])⟩

/-! ## Claim C10: clamping of reported simulator values -/

/-- Evaluation helper for `jsRound` at explicit points. -/
theorem jsRound_eq (x : α) (m : ℤ) (h1 : (m : α) ≤ x + 1/2)
    (h2 : x + 1/2 < m + 1) : jsRound x = (m : α) := by
  unfold jsRound
  norm_cast
  exact Int.floor_eq_iff.mpr ⟨h1, by exact_mod_cast h2⟩

/-- C10: for every `ModelParameters` (with population at least 1) and every
environment (any seasonal/noise factors, so in particular with noise
enabled), every point reported by `simulateSIS` has `susceptible` clamped
into `[0, totalPopulation]` and `infected` clamped into
`[1, totalPopulation]`; `simulateSEIR` applies only the lower clamps
(0, and 1 for `infected`) to its reported values, and it indeed has no upper
bound: a concrete SEIR run reports an `infected` value exceeding the total
population. -/
theorem c10_reported_clamp_bounds (p : ModelParameters α) (startDate : ℤ)
    (days : ℕ) (env : ℕ → α × α) (hN : 1 ≤ p.totalPopulation) :
    (∀ pt ∈ simulateSIS p startDate days env,
        0 ≤ pt.susceptible ∧ pt.susceptible ≤ p.totalPopulation ∧
        1 ≤ pt.infected ∧ pt.infected ≤ p.totalPopulation) ∧
    (∀ pt ∈ simulateSEIR p startDate days env,
        0 ≤ pt.susceptible ∧ 0 ≤ pt.exposed.getD 0 ∧
        1 ≤ pt.infected ∧ 0 ≤ pt.recovered.getD 0) ∧
    (∃ pt ∈ simulateSEIR
        (⟨1/10, 1/10, some (1/10), 1000000, 5000000⟩ : ModelParameters ℚ)
        0 0 (fun _ => (1, 100)),
        pt.totalPopulation < pt.infected) := by
  have h0N : (0 : α) ≤ p.totalPopulation := le_trans zero_le_one hN
  refine ⟨?_, ?_, ?_⟩
  · intro pt hpt
    simp only [simulateSIS, List.mem_map, List.mem_range] at hpt
    obtain ⟨d, -, rfl⟩ := hpt
    simp only [sisPoint]
    exact ⟨le_max_left _ _, max_le h0N (min_le_left _ _), le_max_left _ _,
      max_le hN (min_le_left _ _)⟩
  · intro pt hpt
    simp only [simulateSEIR, List.mem_map, List.mem_range] at hpt
    obtain ⟨d, -, rfl⟩ := hpt
    simp only [seirPoint, Option.getD_some]
    exact ⟨le_max_left _ _, le_max_left _ _, le_max_left _ _, le_max_left _ _⟩
  · refine ⟨seirPoint (⟨1/10, 1/10, some (1/10), 1000000, 5000000⟩ :
        ModelParameters ℚ) 0 (fun _ => (1, 100)) 0, ?_, ?_⟩
    · simp [simulateSEIR, List.range_succ]
    · simp only [seirPoint, seirStateAt, seirInit]
      rw [show ((1000000 : ℚ) * 1 * 100) = ((100000000 : ℤ) : ℚ) - 1/2 + 1/2
            by norm_num,
        jsRound_eq (((100000000 : ℤ) : ℚ) - 1/2 + 1/2) 100000000 (by norm_num)
          (by norm_num)]
      norm_num

/-- Witness for C10: the theorem applied at concrete parameters. -/
theorem c10_reported_clamp_bounds_witness :
    (1 : ℚ) ≤ sampleParams.totalPopulation ∧
    ((∀ pt ∈ simulateSIS sampleParams 0 2 noiseOff,
        0 ≤ pt.susceptible ∧ pt.susceptible ≤ sampleParams.totalPopulation ∧
        1 ≤ pt.infected ∧ pt.infected ≤ sampleParams.totalPopulation) ∧
     (∀ pt ∈ simulateSEIR sampleParams 0 2 noiseOff,
        0 ≤ pt.susceptible ∧ 0 ≤ pt.exposed.getD 0 ∧
        1 ≤ pt.infected ∧ 0 ≤ pt.recovered.getD 0) ∧
     (∃ pt ∈ simulateSEIR
        (⟨1/10, 1/10, some (1/10), 1000000, 5000000⟩ : ModelParameters ℚ)
        0 0 (fun _ => (1, 100)),
        pt.totalPopulation < pt.infected)) :=
  ⟨by norm_num [sampleParams],
    c10_reported_clamp_bounds sampleParams 0 2 noiseOff
      (by norm_num [sampleParams])⟩

/-- The seeded draw is nonnegative. -/
theorem seededRandom_nonneg (seed : ℝ) : 0 ≤ seededRandom seed := by
  unfold seededRandom jsFloor
  have := Int.floor_le (Real.sin seed * 10000)
  linarith

/-- The seeded draw is below 1. -/
theorem seededRandom_lt_one (seed : ℝ) : seededRandom seed < 1 := by
  unfold seededRandom jsFloor
  have := Int.lt_floor_add_one (Real.sin seed * 10000)
  push_cast at this ⊢
  linarith

/-! ## Claim C5: the seeded pseudo-random generator -/

/-- C5: `seededRandom` is a pure deterministic function (equal seeds give
equal values) and its value `frac(sin(seed)·10000)` lies in `[0, 1)`. -/
theorem c5_seededRandom_deterministic_range (a b : ℝ) (hab : a = b) :
    seededRandom a = seededRandom b ∧
    0 ≤ seededRandom a ∧ seededRandom a < 1 := by
  subst hab
  exact ⟨rfl, seededRandom_nonneg a, seededRandom_lt_one a⟩

/-- Witness for C5 at the concrete seed 0. -/
theorem c5_seededRandom_deterministic_range_witness :
    seededRandom 0 = seededRandom 0 ∧
    0 ≤ seededRandom 0 ∧ seededRandom 0 < 1 :=
  c5_seededRandom_deterministic_range 0 0 rfl

/-! ## Claim C6: determinism of the parameter deriver -/

/-- C6: `generateModelParameters` is deterministic and idempotent — it reads
only the track's title, artist, popularity, release year and genres, so two
calls with the same item data, the same variant and the same wall-clock year
yield bit-identical `ModelParameters` (in particular the `id` and `album`
fields are irrelevant). -/
theorem c6_generateModelParameters_deterministic (t1 t2 : MusicTrack ℝ)
    (mt : ModelType) (y : ℤ) (h1 : t1.title = t2.title)
    (h2 : t1.artist = t2.artist) (h3 : t1.popularity = t2.popularity)
    (h4 : t1.releaseYear = t2.releaseYear) (h5 : t1.genre = t2.genre) :
    generateModelParameters t1 mt y = generateModelParameters t2 mt y := by
  unfold generateModelParameters
  rw [h1, h2, h3, h4, h5]

/-- Witness for C6: two calls on the concrete track coincide. -/
theorem c6_generateModelParameters_deterministic_witness :
    sampleTrack.title = sampleTrack.title ∧
    generateModelParameters sampleTrack ModelType.SIS 2025 =
      generateModelParameters sampleTrack ModelType.SIS 2025 :=
  ⟨rfl, c6_generateModelParameters_deterministic sampleTrack sampleTrack
    ModelType.SIS 2025 rfl rfl rfl rfl rfl⟩

/-! ## Claim C7: positivity and clamp bounds of derived parameters -/

/-- `jsFloor` of a nonnegative number is nonnegative. -/
theorem jsFloor_nonneg {x : α} (h : 0 ≤ x) : 0 ≤ jsFloor x := by
  unfold jsFloor
  have : (0 : ℤ) ≤ ⌊x⌋ := Int.le_floor.mpr (by push_cast; linarith)
  exact_mod_cast this

/-- `jsFloor` of a number that is at least 1 is at least 1. -/
theorem one_le_jsFloor {x : α} (h : 1 ≤ x) : 1 ≤ jsFloor x := by
  unfold jsFloor
  have : (1 : ℤ) ≤ ⌊x⌋ := Int.le_floor.mpr (by push_cast; linarith)
  exact_mod_cast this

set_option maxRecDepth 10000 in
/-- C7 counterexample: the track with title "aepdynhx", empty artist and
popularity 0 (inside the data model's `[0, 100]` range) hashes to the seed
−3, so the initial-count draw is `seededRandom(−3 + 3) = frac(sin 0 · 10⁴)
= 0` exactly, and `initialInfected = ⌊0·500 + 0·50000⌋ = 0` — not strictly
positive, refuting the claim at this item. -/
theorem c7_counterexample :
    (generateModelParameters c7Track ModelType.SIS 2026).initialInfected
      = 0 ∧
    ¬ (0 < (generateModelParameters c7Track ModelType.SIS
        2026).initialInfected) := by
  have hseed : trackSeed c7Track.title c7Track.artist = -3 := by decide
  have hmain : (generateModelParameters c7Track ModelType.SIS
      2026).initialInfected = 0 := by
    simp only [generateModelParameters]
    rw [hseed]
    have h3 : ((-3 : ℤ) : ℝ) + 3 = 0 := by norm_num
    rw [h3]
    have hsr : seededRandom 0 = 0 := by
      unfold seededRandom jsFloor
      norm_num
    rw [hsr]
    norm_num [c7Track, jsFloor]
  exact ⟨hmain, by rw [hmain]; exact lt_irrefl 0⟩

/-- C7 amended: for every track, the derived rates lie inside the
per-variant clamp bounds (SIS `β ∈ [0.001, 0.6]`, `γ ∈ [0.005, 0.15]`;
SEIR `β ∈ [0.001, 0.7]`, `γ ∈ [0.005, 0.12]`, `σ ∈ [0.02, 0.25]`) and
`beta`, `gamma`, `totalPopulation` are strictly positive; `initialInfected`
is nonnegative whenever the popularity score is nonnegative, and strictly
positive whenever popularity is at least `1/500` (covering every integer
score of at least 1) — but it can be exactly 0 for a popularity-0 item
whose seeded draw vanishes (see the counterexample). -/
theorem c7_amended_parameter_bounds (t : MusicTrack ℝ) (mt : ModelType)
    (y : ℤ) :
    (0 < (generateModelParameters t mt y).beta ∧
     0 < (generateModelParameters t mt y).gamma ∧
     0 < (generateModelParameters t mt y).totalPopulation) ∧
    (0 ≤ t.popularity →
      0 ≤ (generateModelParameters t mt y).initialInfected) ∧
    (1/500 ≤ t.popularity →
      0 < (generateModelParameters t mt y).initialInfected) ∧
    (mt = ModelType.SIS →
      1/1000 ≤ (generateModelParameters t mt y).beta ∧
      (generateModelParameters t mt y).beta ≤ 6/10 ∧
      1/200 ≤ (generateModelParameters t mt y).gamma ∧
      (generateModelParameters t mt y).gamma ≤ 3/20) ∧
    (mt = ModelType.SEIR →
      1/1000 ≤ (generateModelParameters t mt y).beta ∧
      (generateModelParameters t mt y).beta ≤ 7/10 ∧
      1/200 ≤ (generateModelParameters t mt y).gamma ∧
      (generateModelParameters t mt y).gamma ≤ 12/100 ∧
      ∃ sg, (generateModelParameters t mt y).sigma = some sg ∧
        1/50 ≤ sg ∧ sg ≤ 1/4) := by
  have keyI0 : ∀ s3 : ℝ, 0 ≤ t.popularity →
      (0:ℝ) ≤ t.popularity / 100 * 50000 + seededRandom s3 * 50000 := by
    intro s3 h0
    have := seededRandom_nonneg s3
    nlinarith
  have keyI : ∀ s3 : ℝ, 1/500 ≤ t.popularity →
      (1:ℝ) ≤ t.popularity / 100 * 50000 + seededRandom s3 * 50000 := by
    intro s3 hp
    have := seededRandom_nonneg s3
    nlinarith
  have keyN : ∀ s2 : ℝ,
      (0:ℝ) < 5000000 + jsFloor (seededRandom s2 * 5000000) := by
    intro s2
    have h := jsFloor_nonneg (mul_nonneg (seededRandom_nonneg s2)
      (by norm_num : (0:ℝ) ≤ 5000000))
    linarith
  rcases mt with _ | _
  · simp only [generateModelParameters]
    refine ⟨⟨?_, ?_, ?_⟩, fun h0 => ?_, fun hp => ?_,
      fun _ => ⟨?_, ?_, ?_, ?_⟩, ?_⟩
    · exact lt_of_lt_of_le (by norm_num) (le_max_left _ _)
    · exact lt_of_lt_of_le (by norm_num) (le_max_left _ _)
    · exact keyN _
    · exact jsFloor_nonneg (keyI0 _ h0)
    · exact lt_of_lt_of_le zero_lt_one (one_le_jsFloor (keyI _ hp))
    · exact le_max_left _ _
    · exact max_le (by norm_num) (min_le_left _ _)
    · exact le_max_left _ _
    · exact max_le (by norm_num) (min_le_left _ _)
    · intro h
      cases h
  · simp only [generateModelParameters]
    refine ⟨⟨?_, ?_, ?_⟩, fun h0 => ?_, fun hp => ?_, ?_,
      fun _ => ⟨?_, ?_, ?_, ?_, ⟨_, rfl, ?_, ?_⟩⟩⟩
    · exact lt_of_lt_of_le (by norm_num) (le_max_left _ _)
    · exact lt_of_lt_of_le (by norm_num) (le_max_left _ _)
    · exact keyN _
    · exact jsFloor_nonneg (keyI0 _ h0)
    · exact lt_of_lt_of_le zero_lt_one (one_le_jsFloor (keyI _ hp))
    · intro h
      cases h
    · exact le_max_left _ _
    · exact max_le (by norm_num) (min_le_left _ _)
    · exact le_max_left _ _
    · exact max_le (by norm_num) (min_le_left _ _)
    · exact le_max_left _ _
    · exact max_le (by norm_num) (min_le_left _ _)

/-- Witness for the amended C7: at the concrete popularity-80 track both
popularity conditions are discharged concretely and the conditional
positivity of `initialInfected` applies. -/
theorem c7_amended_parameter_bounds_witness :
    0 ≤ sampleTrack.popularity ∧ 1/500 ≤ sampleTrack.popularity ∧
    0 ≤ (generateModelParameters sampleTrack
          ModelType.SEIR 2025).initialInfected ∧
    0 < (generateModelParameters sampleTrack
          ModelType.SEIR 2025).initialInfected ∧
    0 < (generateModelParameters sampleTrack ModelType.SEIR 2025).beta :=
  ⟨by norm_num [sampleTrack], by norm_num [sampleTrack],
    (c7_amended_parameter_bounds sampleTrack ModelType.SEIR 2025).2.1
      (by norm_num [sampleTrack]),
    (c7_amended_parameter_bounds sampleTrack ModelType.SEIR 2025).2.2.1
      (by norm_num [sampleTrack]),
    (c7_amended_parameter_bounds sampleTrack ModelType.SEIR 2025).1.1⟩

/-! ## Structural lemmas about the smoothing passes -/

/-- `jsRound x` is at least 1 whenever `x ≥ 1/2`. -/
theorem one_le_jsRound_of_half {x : α} (h : 1/2 ≤ x) : 1 ≤ jsRound x := by
  unfold jsRound
  have : (1 : ℤ) ≤ ⌊x + 1/2⌋ := Int.le_floor.mpr (by push_cast; linarith)
  exact_mod_cast this

/-- The clamp step only writes the `infected` field. -/
theorem clampStep_preserves {β : Type} (f : TrendDataPoint α → β)
    (hf : ∀ pt v, f { pt with infected := v } = f pt)
    (pct prevI : α) (pt : TrendDataPoint α) :
    f (clampStep pct prevI pt) = f pt := by
  simp only [clampStep]
  by_cases h : prevI * pct < |pt.infected - prevI|
  · rw [if_pos h]
    exact hf pt _
  · rw [if_neg h]

/-- The outlier step only writes the `infected` field. -/
theorem outlierStep_preserves {β : Type} (f : TrendDataPoint α → β)
    (hf : ∀ pt v, f { pt with infected := v } = f pt)
    (aI : α) (pt c : TrendDataPoint α) :
    f (outlierStep aI pt c) = f pt := by
  simp only [outlierStep]
  split
  · exact hf pt _
  · rfl

/-- Pass-1 tail preserves every field function untouched by `infected`
updates. -/
theorem clampPass1Go_map_eq {β : Type} (f : TrendDataPoint α → β)
    (hf : ∀ pt v, f { pt with infected := v } = f pt) (pct : α) :
    ∀ (l : List (TrendDataPoint α)) (prevI : α),
      (clampPass1Go pct prevI l).map f = l.map f := by
  intro l
  induction l with
  | nil => intro prevI; rfl
  | cons pt rest ih =>
      intro prevI
      simp only [clampPass1Go, List.map_cons, ih, clampStep_preserves f hf]

/-- Pass 1 preserves every field function untouched by `infected` updates. -/
theorem clampPass1_map_eq {β : Type} (f : TrendDataPoint α → β)
    (hf : ∀ pt v, f { pt with infected := v } = f pt) (pct : α)
    (l : List (TrendDataPoint α)) : (clampPass1 pct l).map f = l.map f := by
  cases l with
  | nil => rfl
  | cons pt rest =>
      simp only [clampPass1, List.map_cons, clampPass1Go_map_eq f hf pct rest]

/-- Pass-2 tail preserves every field function untouched by `infected`
updates. -/
theorem outlierPass2Go_map_eq {β : Type} (f : TrendDataPoint α → β)
    (hf : ∀ pt v, f { pt with infected := v } = f pt) :
    ∀ (l : List (TrendDataPoint α)) (prevI : α),
      (outlierPass2Go prevI l).map f = l.map f := by
  intro l
  induction l with
  | nil => intro prevI; rfl
  | cons pt rest ih =>
      intro prevI
      cases rest with
      | nil => rfl
      | cons c rest2 =>
          simp only [outlierPass2Go, List.map_cons,
            outlierStep_preserves f hf, ih]

/-- Pass 2 preserves every field function untouched by `infected` updates. -/
theorem outlierPass2_map_eq {β : Type} (f : TrendDataPoint α → β)
    (hf : ∀ pt v, f { pt with infected := v } = f pt)
    (l : List (TrendDataPoint α)) : (outlierPass2 l).map f = l.map f := by
  cases l with
  | nil => rfl
  | cons a rest =>
      cases rest with
      | nil => rfl
      | cons b rest2 =>
          simp only [outlierPass2, List.map_cons,
            outlierPass2Go_map_eq f hf rest2]

/-- The clamp step keeps `infected ≥ 1` (for clamp percentages up to the
source's maximum of 40%): a downward clamp lands at
`round(prev·(1−pct)) ≥ round(0.6) = 1`. -/
theorem clampStep_infected_ge_one {pct prevI : α} (hp0 : 0 ≤ pct)
    (hp : pct ≤ 2/5) (hprev : 1 ≤ prevI) {pt : TrendDataPoint α}
    (hpt : 1 ≤ pt.infected) : 1 ≤ (clampStep pct prevI pt).infected := by
  simp only [clampStep]
  split
  · apply one_le_jsRound_of_half
    split
    · nlinarith [mul_nonneg (le_trans zero_le_one hprev) hp0]
    · nlinarith [mul_nonneg (sub_nonneg.mpr hprev)
        (by linarith : (0:α) ≤ 1 - pct)]
  · exact hpt

/-- The outlier step keeps `infected ≥ 1`: a blend lands at
`round(0.8·curr + 0.2·expected) ≥ round(0.8) = 1` since the guard requires
`expected > 0`. -/
theorem outlierStep_infected_ge_one {aI : α} {pt c : TrendDataPoint α}
    (hpt : 1 ≤ pt.infected) : 1 ≤ (outlierStep aI pt c).infected := by
  simp only [outlierStep]
  split
  · rename_i hcond
    apply one_le_jsRound_of_half
    nlinarith [hcond.2]
  · exact hpt

/-- Pass-1 tail keeps `infected ≥ 1`. -/
theorem clampPass1Go_infected_ge_one {pct : α} (hp0 : 0 ≤ pct)
    (hp : pct ≤ 2/5) :
    ∀ (l : List (TrendDataPoint α)) (prevI : α), 1 ≤ prevI →
      (∀ pt ∈ l, 1 ≤ pt.infected) →
      ∀ pt ∈ clampPass1Go pct prevI l, 1 ≤ pt.infected := by
  intro l
  induction l with
  | nil => intro prevI _ _ pt hpt; cases hpt
  | cons q rest ih =>
      intro prevI hprev hl pt hpt
      have hq : 1 ≤ q.infected := hl q (List.mem_cons_self q rest)
      have hq2 : 1 ≤ (clampStep pct prevI q).infected :=
        clampStep_infected_ge_one hp0 hp hprev hq
      simp only [clampPass1Go, List.mem_cons] at hpt
      rcases hpt with rfl | hpt
      · exact hq2
      · exact ih _ hq2 (fun r hr => hl r (List.mem_cons_of_mem q hr)) pt hpt

/-- Pass 1 keeps `infected ≥ 1`. -/
theorem clampPass1_infected_ge_one {pct : α} (hp0 : 0 ≤ pct) (hp : pct ≤ 2/5)
    (l : List (TrendDataPoint α)) (hl : ∀ pt ∈ l, 1 ≤ pt.infected) :
    ∀ pt ∈ clampPass1 pct l, 1 ≤ pt.infected := by
  cases l with
  | nil => intro pt hpt; cases hpt
  | cons q rest =>
      intro pt hpt
      have hq : 1 ≤ q.infected := hl q (List.mem_cons_self q rest)
      simp only [clampPass1, List.mem_cons] at hpt
      rcases hpt with rfl | hpt
      · exact hq
      · exact clampPass1Go_infected_ge_one hp0 hp rest q.infected hq
          (fun r hr => hl r (List.mem_cons_of_mem q hr)) pt hpt

/-- Pass-2 tail keeps `infected ≥ 1`. -/
theorem outlierPass2Go_infected_ge_one :
    ∀ (l : List (TrendDataPoint α)) (prevI : α),
      (∀ pt ∈ l, 1 ≤ pt.infected) →
      ∀ pt ∈ outlierPass2Go prevI l, 1 ≤ pt.infected := by
  intro l
  induction l with
  | nil => intro prevI _ pt hpt; cases hpt
  | cons q rest ih =>
      intro prevI hl pt hpt
      have hq : 1 ≤ q.infected := hl q (List.mem_cons_self q rest)
      cases rest with
      | nil =>
          simp only [outlierPass2Go, List.mem_singleton] at hpt
          subst hpt
          exact hq
      | cons c rest2 =>
          have hq2 : 1 ≤ (outlierStep prevI q c).infected :=
            outlierStep_infected_ge_one hq
          simp only [outlierPass2Go, List.mem_cons] at hpt
          rcases hpt with rfl | hpt
          · exact hq2
          · exact ih _ (fun r hr => hl r (List.mem_cons_of_mem q hr)) pt
              (by simpa using hpt)

/-- Pass 2 keeps `infected ≥ 1`. -/
theorem outlierPass2_infected_ge_one (l : List (TrendDataPoint α))
    (hl : ∀ pt ∈ l, 1 ≤ pt.infected) :
    ∀ pt ∈ outlierPass2 l, 1 ≤ pt.infected := by
  cases l with
  | nil => intro pt hpt; cases hpt
  | cons a rest =>
      cases rest with
      | nil => exact hl
      | cons b rest2 =>
          intro pt hpt
          simp only [outlierPass2, List.mem_cons] at hpt
          rcases hpt with rfl | rfl | hpt
          · exact hl pt (List.mem_cons_self _ _)
          · exact hl pt (List.mem_cons_of_mem _ (List.mem_cons_self _ _))
          · exact outlierPass2Go_infected_ge_one rest2 b.infected
              (fun r hr => hl r
                (List.mem_cons_of_mem _ (List.mem_cons_of_mem _ hr))) pt hpt

/-- The raw point's date is `currentDate + day`. -/
theorem rawPoint_date (modelType : ModelType) (p : ModelParameters α)
    (popularity : α) (scenario : Scenario) (currentDate : ℤ)
    (predictionDays : ℕ) (mult trendDir : ℕ → α) (day : ℕ) :
    (rawPoint modelType p popularity scenario currentDate predictionDays
      mult trendDir day).date = currentDate + day := by
  cases modelType <;> rfl

/-- The raw point's infected count is `max 1 (round (mult day))`. -/
theorem rawPoint_infected (modelType : ModelType) (p : ModelParameters α)
    (popularity : α) (scenario : Scenario) (currentDate : ℤ)
    (predictionDays : ℕ) (mult trendDir : ℕ → α) (day : ℕ) :
    (rawPoint modelType p popularity scenario currentDate predictionDays
      mult trendDir day).infected = max 1 (jsRound (mult day)) := by
  cases modelType <;> rfl

/-- Every scenario's clamp percentage lies in `[0, 2/5]`. -/
theorem maxChangePercent_mem (s : Scenario) :
    0 ≤ (maxChangePercent s : α) ∧ (maxChangePercent s : α) ≤ 2/5 := by
  cases s <;> constructor <;> norm_num [maxChangePercent]

/-! ## Claim C2: shape of the returned predicted series -/

/-- C2: for every positive `predictionDays` (and arbitrary track,
parameters and oracle values), the forecast builds `predictionDays`
internal daily points and returns them after dropping the first, so the
returned series has exactly `predictionDays − 1` points, its dates are
strictly increasing, and every returned point's infected count is at
least 1 (the raw points are floored at 1 and both smoothing passes
preserve the floor).  At `predictionDays = 30` this gives exactly 29
points. -/
theorem c2_forecast_shape (track : MusicTrack α) (p : ModelParameters α)
    (currentYear currentDate : ℤ) (predictionDays : ℕ) (rnd : ℤ → α)
    (mult trendDir : ℕ → α) (modelType : ModelType)
    (hpos : 1 ≤ predictionDays) :
    (forecast track p currentYear currentDate predictionDays rnd mult
        trendDir modelType).length = predictionDays - 1 ∧
    ((forecast track p currentYear currentDate predictionDays rnd mult
        trendDir modelType).map TrendDataPoint.date).Pairwise (· < ·) ∧
    ∀ pt ∈ forecast track p currentYear currentDate predictionDays rnd mult
        trendDir modelType, 1 ≤ pt.infected := by
  have hdatef : ∀ (pt : TrendDataPoint α) (v : α),
      ({ pt with infected := v } : TrendDataPoint α).date = pt.date :=
    fun _ _ => rfl
  simp only [forecast]
  obtain ⟨scen, hscen⟩ : ∃ s, s = forecastScenario track currentYear rnd :=
    ⟨_, rfl⟩
  obtain ⟨raw, hrawdef⟩ : ∃ l, l = rawPredictions modelType p
      (track.popularity / 100) (forecastScenario track currentYear rnd)
      currentDate predictionDays mult trendDir := ⟨_, rfl⟩
  rw [← hrawdef, ← hscen]
  have hrawdates : raw.map TrendDataPoint.date
      = (List.range predictionDays).map
          (fun k => currentDate + ((k + 1 : ℕ) : ℤ)) := by
    rw [hrawdef]
    unfold rawPredictions
    rw [List.map_map]
    exact List.map_congr_left (fun k _ => rawPoint_date _ _ _ _ _ _ _ _ _)
  have hs1dates : (clampPass1 (maxChangePercent scen) raw).map
      TrendDataPoint.date = raw.map TrendDataPoint.date :=
    clampPass1_map_eq _ hdatef _ raw
  have hs2dates : (outlierPass2 (clampPass1 (maxChangePercent scen) raw)).map
      TrendDataPoint.date
      = (clampPass1 (maxChangePercent scen) raw).map TrendDataPoint.date :=
    outlierPass2_map_eq _ hdatef _
  have hrawlen : raw.length = predictionDays := by
    rw [hrawdef]
    unfold rawPredictions
    rw [List.length_map, List.length_range]
  have hs2len : (outlierPass2 (clampPass1 (maxChangePercent scen) raw)).length
      = predictionDays := by
    have h1 : (outlierPass2 (clampPass1 (maxChangePercent scen) raw)).length
        = ((outlierPass2 (clampPass1 (maxChangePercent scen) raw)).map
            TrendDataPoint.date).length := (List.length_map _ _).symm
    rw [h1, hs2dates, hs1dates, hrawdates, List.length_map, List.length_range]
  refine ⟨?_, ?_, ?_⟩
  · rw [List.length_drop, hs2len]
  · rw [List.map_drop, hs2dates, hs1dates, hrawdates]
    refine List.Pairwise.sublist (List.drop_sublist 1 _) ?_
    refine List.Pairwise.map _ (fun a b hab => ?_) (List.pairwise_lt_range _)
    omega
  · intro pt hpt
    have hraw1 : ∀ q ∈ raw, 1 ≤ q.infected := by
      intro q hq
      rw [hrawdef] at hq
      unfold rawPredictions at hq
      simp only [List.mem_map, List.mem_range] at hq
      obtain ⟨k, -, rfl⟩ := hq
      rw [rawPoint_infected]
      exact le_max_left _ _
    have hs1 : ∀ q ∈ clampPass1 (maxChangePercent scen) raw, 1 ≤ q.infected :=
      clampPass1_infected_ge_one (maxChangePercent_mem scen).1
        (maxChangePercent_mem scen).2 raw hraw1
    have hs2 : ∀ q ∈ outlierPass2 (clampPass1 (maxChangePercent scen) raw),
        1 ≤ q.infected := outlierPass2_infected_ge_one _ hs1
    exact hs2 pt (List.mem_of_mem_drop hpt)

/-! ## Claim C3: adjacent change bound after the smoothing pipeline -/

/-- Writing the `infected` field reads back. -/
theorem infected_set (pt : TrendDataPoint α) (v : α) :
    ({ pt with infected := v } : TrendDataPoint α).infected = v := rfl

/-- One clamp step moves `infected` to within `prev·pct + 1/2` of the
previous value (the `1/2` is the JS rounding error of the clamped value). -/
theorem clampStep_chain_bound {pct prevI : α} (hp0 : 0 ≤ pct)
    (hprev : 0 ≤ prevI) (pt : TrendDataPoint α) :
    |(clampStep pct prevI pt).infected - prevI| ≤ prevI * pct + 1/2 := by
  simp only [clampStep]
  by_cases h : prevI * pct < |pt.infected - prevI|
  · rw [if_pos h]
    rw [infected_set]
    have hmc : 0 ≤ prevI * pct := mul_nonneg hprev hp0
    by_cases hdir : prevI < pt.infected
    · rw [if_pos hdir, mul_one]
      have h1 := jsRound_le_add_half (prevI + prevI * pct)
      have h2 := sub_half_lt_jsRound (prevI + prevI * pct)
      rw [abs_le]
      constructor <;> linarith
    · rw [if_neg hdir]
      have h1 := jsRound_le_add_half (prevI + prevI * pct * (-1))
      have h2 := sub_half_lt_jsRound (prevI + prevI * pct * (-1))
      rw [abs_le]
      constructor <;> linarith
  · rw [if_neg h]
    push_neg at h
    have hmc : 0 ≤ prevI * pct := mul_nonneg hprev hp0
    linarith

/-- The pass-1 tail produces a chain in which every step respects the
`prev·pct + 1/2` bound. -/
theorem clampPass1Go_chain {pct : α} (hp0 : 0 ≤ pct) (hp : pct ≤ 2/5) :
    ∀ (l : List (TrendDataPoint α)) (prev : TrendDataPoint α),
      1 ≤ prev.infected → (∀ pt ∈ l, 1 ≤ pt.infected) →
      List.Chain
        (fun a b => |b.infected - a.infected| ≤ a.infected * pct + 1/2)
        prev (clampPass1Go pct prev.infected l) := by
  intro l
  induction l with
  | nil => intro prev _ _; exact List.Chain.nil
  | cons q rest ih =>
      intro prev hprev hl
      have hq : 1 ≤ q.infected := hl q (List.mem_cons_self q rest)
      have hq2 : 1 ≤ (clampStep pct prev.infected q).infected :=
        clampStep_infected_ge_one hp0 hp hprev hq
      simp only [clampPass1Go]
      exact List.Chain.cons
        (clampStep_chain_bound hp0 (le_trans zero_le_one hprev) q)
        (ih (clampStep pct prev.infected q) hq2
          (fun r hr => hl r (List.mem_cons_of_mem q hr)))

/-- Pass 1 produces a series whose adjacent infected values respect the
`prev·pct + 1/2` bound. -/
theorem clampPass1_chain {pct : α} (hp0 : 0 ≤ pct) (hp : pct ≤ 2/5)
    (l : List (TrendDataPoint α)) (hl : ∀ pt ∈ l, 1 ≤ pt.infected) :
    (clampPass1 pct l).Chain'
      (fun a b => |b.infected - a.infected| ≤ a.infected * pct + 1/2) := by
  cases l with
  | nil => simp [clampPass1]
  | cons q rest =>
      have hq : 1 ≤ q.infected := hl q (List.mem_cons_self q rest)
      simp only [clampPass1]
      show List.Chain _ q (clampPass1Go pct q.infected rest)
      exact clampPass1Go_chain hp0 hp rest q hq
        (fun r hr => hl r (List.mem_cons_of_mem q hr))

/-- Every raw prediction point has `infected ≥ 1`. -/
theorem rawPredictions_infected_ge_one (modelType : ModelType)
    (p : ModelParameters α) (popularity : α) (scenario : Scenario)
    (currentDate : ℤ) (predictionDays : ℕ) (mult trendDir : ℕ → α) :
    ∀ pt ∈ rawPredictions modelType p popularity scenario currentDate
      predictionDays mult trendDir, 1 ≤ pt.infected := by
  intro pt hpt
  unfold rawPredictions at hpt
  simp only [List.mem_map, List.mem_range] at hpt
  obtain ⟨k, -, rfl⟩ := hpt
  rw [rawPoint_infected]
  exact le_max_left _ _

/-- Witness for C2: the theorem applied at `predictionDays = 30` with
concrete track, parameters and oracles: exactly 29 points, strictly
increasing dates, all infected at least 1. -/
theorem c2_forecast_shape_witness :
    1 ≤ 30 ∧
    ((forecast cTrack cParams 2025 0 30 cRnd cMult cTrend
        ModelType.SIS).length = 30 - 1 ∧
     ((forecast cTrack cParams 2025 0 30 cRnd cMult cTrend
        ModelType.SIS).map TrendDataPoint.date).Pairwise (· < ·) ∧
     ∀ pt ∈ forecast cTrack cParams 2025 0 30 cRnd cMult cTrend
        ModelType.SIS, 1 ≤ pt.infected) :=
  ⟨by norm_num,
    c2_forecast_shape cTrack cParams 2025 0 30 cRnd cMult cTrend
      ModelType.SIS (by norm_num)⟩

/-- C3 counterexample: a concrete SIS run of the full pipeline (scenario
`cyclical_waves`, clamp percentage 25%) whose returned series starts with
infected values 2 and 3: the day-over-day clamp fired on that pair and set
`round(2 + 0.5) = 3` (JS rounds half up), so the adjacent change of 1
exceeds 25% of the previous value (0.5) in the final output. -/
theorem c3_counterexample :
    maxChangePercent (forecastScenario cTrack 2025 cRnd) = (25/100 : ℚ) ∧
    ((forecast cTrack cParams 2025 0 4 cRnd cMult cTrend ModelType.SIS).map
      TrendDataPoint.infected) = [2, 3, 3] ∧
    ¬ |(3 : ℚ) - 2| ≤ 2 * (25/100) := by
  refine ⟨?_, ?_, by norm_num⟩
  · norm_num [forecastScenario, scenarioWeights, totalWeight, selectScenario,
      cTrack, cRnd, maxChangePercent]
  · norm_num [forecast, forecastScenario, scenarioWeights, totalWeight,
      selectScenario, rawPredictions, rawPoint, clampPass1, clampPass1Go,
      clampStep, outlierPass2, outlierPass2Go, outlierStep, maxChangePercent,
      jsRound, cTrack, cParams, cRnd, cMult, cTrend, List.range_succ]

/-- C3 amended: the day-over-day clamp pass guarantees that adjacent
infected values differ by at most the scenario's maximum percentage of the
previous value **plus half a unit of JS rounding**; the exact percentage
bound claimed for the final series fails (see the counterexample), both
because the clamped value is rounded half-up and because the subsequent
local-outlier pass may move interior values again without re-checking the
percentage bound. -/
theorem c3_amended_clamp_bound (track : MusicTrack α) (p : ModelParameters α)
    (currentYear currentDate : ℤ) (predictionDays : ℕ) (rnd : ℤ → α)
    (mult trendDir : ℕ → α) (modelType : ModelType) :
    (clampPass1 (maxChangePercent (forecastScenario track currentYear rnd))
      (rawPredictions modelType p (track.popularity / 100)
        (forecastScenario track currentYear rnd) currentDate predictionDays
        mult trendDir)).Chain'
      (fun a b => |b.infected - a.infected| ≤
        a.infected * maxChangePercent (forecastScenario track currentYear rnd)
          + 1/2) :=
  clampPass1_chain (maxChangePercent_mem _).1 (maxChangePercent_mem _).2 _
    (rawPredictions_infected_ge_one _ _ _ _ _ _ _ _)

/-! ## Claim C4: SIS conservation in the returned series -/

/-- `jsRound` of an integer cast is itself. -/
theorem jsRound_intCast (m : ℤ) : jsRound ((m : ℤ) : α) = ((m : ℤ) : α) := by
  unfold jsRound
  have h12 : ⌊(1/2 : α)⌋ = 0 := Int.floor_eq_iff.mpr (by constructor <;> push_cast <;> norm_num)
  rw [Int.floor_int_add, h12, add_zero]

/-- Both smoothing passes leave the `susceptible` field of every entry
unchanged. -/
theorem passes_preserve_susceptible (pct : α) (l : List (TrendDataPoint α)) :
    (outlierPass2 (clampPass1 pct l)).map TrendDataPoint.susceptible
      = l.map TrendDataPoint.susceptible := by
  rw [outlierPass2_map_eq TrendDataPoint.susceptible (fun _ _ => rfl),
    clampPass1_map_eq TrendDataPoint.susceptible (fun _ _ => rfl)]

/-- The two passes preserve length. -/
theorem passes_length (pct : α) (l : List (TrendDataPoint α)) :
    (outlierPass2 (clampPass1 pct l)).length = l.length := by
  have h := passes_preserve_susceptible pct l
  have h1 : (outlierPass2 (clampPass1 pct l)).length
      = ((outlierPass2 (clampPass1 pct l)).map
          TrendDataPoint.susceptible).length := (List.length_map _ _).symm
  rw [h1, h, List.length_map]

/-- C4 counterexample: in a concrete SIS run the clamp pass lowers day 2's
infected from 200 to 125, but `susceptible` keeps the value
`5000000 − 200 = 4999800` computed from the raw infected count, so the
returned point violates `susceptible = totalPopulation − infected`
(4999800 ≠ 5000000 − 125): the smoothing passes never re-derive
`susceptible`. -/
theorem c4_counterexample :
    ∃ pt, (forecast cTrack cParams 2025 0 3 cRnd c4Mult cTrend
        ModelType.SIS).get? 0 = some pt ∧
      pt.infected = 125 ∧ pt.susceptible = 4999800 ∧
      pt.totalPopulation = 5000000 ∧
      pt.susceptible ≠ pt.totalPopulation - pt.infected := by
  refine ⟨⟨2, 4999800, none, 125, none, 5000000⟩, ?_, rfl, rfl, rfl,
    by norm_num⟩
  norm_num [forecast, forecastScenario, scenarioWeights, totalWeight,
    selectScenario, rawPredictions, rawPoint, clampPass1, clampPass1Go,
    clampStep, outlierPass2, outlierPass2Go, outlierStep, maxChangePercent,
    jsRound, cTrack, cParams, cRnd, c4Mult, cTrend, List.range_succ]

/-- C4 amended: in the SIS pipeline the smoothing passes only rewrite
`infected`, never `susceptible`; every returned point's `susceptible` is
`max(0, round(N − r))` where `r = round(mult(day))` is that day's
pre-smoothing infected value, and the conservation rule
`susceptible = totalPopulation − infected` holds at a returned point
whenever the smoothing passes left its infected value at `r` and
`1 ≤ r ≤ N` (so the push clamps did not fire); points whose infected value
was altered by smoothing can violate the rule (see the counterexample). -/
theorem c4_amended_susceptible (track : MusicTrack α) (p : ModelParameters α)
    (currentYear currentDate : ℤ) (predictionDays : ℕ) (rnd : ℤ → α)
    (mult trendDir : ℕ → α) (i : ℕ) (pt : TrendDataPoint α)
    (hget : (forecast track p currentYear currentDate predictionDays rnd
      mult trendDir ModelType.SIS).get? i = some pt) :
    pt.susceptible
      = max 0 (jsRound (p.totalPopulation - jsRound (mult (i + 2)))) ∧
    (∀ n : ℤ, p.totalPopulation = (n : α) →
      pt.infected = jsRound (mult (i + 2)) →
      1 ≤ jsRound (mult (i + 2)) →
      jsRound (mult (i + 2)) ≤ p.totalPopulation →
      pt.susceptible = p.totalPopulation - pt.infected) := by
  simp only [forecast] at hget
  rw [List.get?_drop] at hget
  obtain ⟨scen, hscen⟩ : ∃ s, s = forecastScenario track currentYear rnd :=
    ⟨_, rfl⟩
  obtain ⟨raw, hrawdef⟩ : ∃ l, l = rawPredictions ModelType.SIS p
      (track.popularity / 100) (forecastScenario track currentYear rnd)
      currentDate predictionDays mult trendDir := ⟨_, rfl⟩
  rw [← hrawdef, ← hscen] at hget
  have hlen0 : 1 + i <
      (outlierPass2 (clampPass1 (maxChangePercent scen) raw)).length := by
    obtain ⟨hlt, -⟩ := List.get?_eq_some.mp hget
    exact hlt
  have hlen : 1 + i < predictionDays := by
    rw [passes_length, hrawdef] at hlen0
    simpa [rawPredictions] using hlen0
  have hsus := passes_preserve_susceptible (maxChangePercent scen) raw
  have hmap := congrArg (fun l => l.get? (1 + i)) hsus
  simp only [List.get?_map] at hmap
  have hrawget : raw.get? (1 + i)
      = some (rawPoint ModelType.SIS p (track.popularity / 100)
          (forecastScenario track currentYear rnd) currentDate predictionDays
          mult trendDir (1 + i + 1)) := by
    rw [hrawdef]
    unfold rawPredictions
    rw [List.get?_map, List.get?_range hlen]
    rfl
  rw [hget, hrawget] at hmap
  simp only [Option.map_some', Option.some.injEq] at hmap
  have hpt : pt.susceptible = max 0
      (jsRound (p.totalPopulation - jsRound (mult (i + 2)))) := by
    rw [hmap]
    have h2 : 1 + i + 1 = i + 2 := by omega
    rw [h2]
    rfl
  refine ⟨hpt, ?_⟩
  intro n hn hinf h1 hN
  obtain ⟨j, hj⟩ : ∃ j : ℤ, jsRound (mult (i + 2)) = ((j : ℤ) : α) := ⟨_, rfl⟩
  rw [hpt, hinf, hj]
  rw [hj] at h1 hN
  rw [hn] at hN
  have hcast : (n : α) - ((j : ℤ) : α) = (((n - j : ℤ) : ℤ) : α) := by
    push_cast
    ring
  have hge : (0:α) ≤ ((n - j : ℤ) : α) := by
    push_cast
    push_cast at h1 hN
    linarith
  rw [hn, hcast, jsRound_intCast, max_eq_right hge]

/-- The first returned point of the no-jump run. -/
theorem c4b_run_get :
    (forecast cTrack cParams 2025 0 3 cRnd c4bMult cTrend
      ModelType.SIS).get? 0
      = some (⟨2, 4999900, none, 100, none, 5000000⟩ : TrendDataPoint ℚ) := by
  norm_num [forecast, forecastScenario, scenarioWeights, totalWeight,
    selectScenario, rawPredictions, rawPoint, clampPass1, clampPass1Go,
    clampStep, outlierPass2, outlierPass2Go, outlierStep, maxChangePercent,
    jsRound, cTrack, cParams, cRnd, c4bMult, cTrend, List.range_succ]

/-- Witness for the amended C4 statement: in a run the clamp never
rewrites, the first returned point satisfies both conjuncts (and its
conservation implication has all hypotheses true: 4999900 = 5000000 − 100). -/
theorem c4_amended_susceptible_witness :
    ((forecast cTrack cParams 2025 0 3 cRnd c4bMult cTrend
        ModelType.SIS).get? 0
      = some (⟨2, 4999900, none, 100, none, 5000000⟩ : TrendDataPoint ℚ)) ∧
    ((⟨2, 4999900, none, 100, none, 5000000⟩ : TrendDataPoint ℚ).susceptible
       = max 0 (jsRound (cParams.totalPopulation - jsRound (c4bMult (0 + 2)))) ∧
     (∀ n : ℤ, cParams.totalPopulation = (n : ℚ) →
       (⟨2, 4999900, none, 100, none, 5000000⟩ :
          TrendDataPoint ℚ).infected = jsRound (c4bMult (0 + 2)) →
       1 ≤ jsRound (c4bMult (0 + 2)) →
       jsRound (c4bMult (0 + 2)) ≤ cParams.totalPopulation →
       (⟨2, 4999900, none, 100, none, 5000000⟩ :
          TrendDataPoint ℚ).susceptible
         = cParams.totalPopulation -
           (⟨2, 4999900, none, 100, none, 5000000⟩ :
              TrendDataPoint ℚ).infected)) :=
  ⟨c4b_run_get,
    c4_amended_susceptible cTrack cParams 2025 0 3 cRnd c4bMult cTrend 0 _
      c4b_run_get⟩

/-! ## Claim C9: the explosive-growth guard is first -/

/-- C9: whenever the computed `growthPotential` exceeds 2.5 and the
computed `volatilityFactor` exceeds 0.8, `analyzeInsights` classifies the
future outlook as `explosive_growth` — that guard is the first in the
ordered first-match-wins chain, so no other category can win. -/
theorem c9_explosive_growth (data preds : List (TrendDataPoint α))
    (mt : ModelType) (hg : 5/2 < growthPotential data preds)
    (hv : 4/5 < volatilityFactor preds) :
    (analyzeInsights data preds mt).futureOutlook =
      Outlook.explosive_growth := by
  show outlookOf data preds = Outlook.explosive_growth
  unfold outlookOf
  rw [if_pos ⟨hg, hv⟩]

/-- Witness for C9 at concrete data: one historical point with 100
listeners and predictions reaching 300 (growth potential 3) with range
290 over average 155 (volatility ≈ 1.87). -/
theorem c9_explosive_growth_witness :
    (5/2 : ℚ) < growthPotential c9Data c9Preds ∧
    (4/5 : ℚ) < volatilityFactor c9Preds ∧
    (analyzeInsights c9Data c9Preds ModelType.SIS).futureOutlook
      = Outlook.explosive_growth := by
  have hg : (5/2 : ℚ) < growthPotential c9Data c9Preds := by
    norm_num [growthPotential, futureMax, currentListeners, c9Data, c9Preds]
  have hv : (4/5 : ℚ) < volatilityFactor c9Preds := by
    norm_num [volatilityFactor, futureMax, futureMin, avgInfected, c9Preds]
  exact ⟨hg, hv, c9_explosive_growth _ _ ModelType.SIS hg hv⟩

/-- C8: when the request carries no track payload and the cache has no
entry for the identifier, the handler returns the structured 404
"track not found, please search again" error and produces no analysis
artifacts — the result is the error constructor, which contains no derived
parameters, simulation, forecast or insights. -/
theorem c8_missing_track_not_found (req : TrendRequest ℝ)
    (cache : String → Option (MusicTrack ℝ)) (currentYear currentDate : ℤ)
    (env : ℕ → ℝ × ℝ) (mult trendDir : ℕ → ℝ)
    (h1 : req.trackData = none) (h2 : cache req.trackId = none) :
    handleTrendAnalysis req cache currentYear currentDate env mult trendDir
      = HandlerResult.error 404
          ("Track not found. Please search for the track again.") := by
  unfold handleTrendAnalysis
  rw [h1]
  simp [Option.orElse, h2]

/-- Witness for C8: a concrete request with no payload against an empty
cache. -/
theorem c8_missing_track_not_found_witness :
    (⟨"t1", ModelType.SIS, 30, none⟩ : TrendRequest ℝ).trackData = none ∧
    handleTrendAnalysis (⟨"t1", ModelType.SIS, 30, none⟩ : TrendRequest ℝ)
        (fun _ => none) 2025 0 noiseOff (fun _ => 1) (fun _ => 1)
      = HandlerResult.error 404
          ("Track not found. Please search for the track again.") :=
  ⟨rfl, c8_missing_track_not_found _ _ 2025 0 noiseOff (fun _ => 1)
    (fun _ => 1) rfl rfl⟩

end Mmel
